import Mathlib

/-!
Shallow embedding of the TRAINTRCKR Cardiff–Kotara corridor movement
aggregation engine (TypeScript sources under src/), for checking the
natural-language specification against the code.

Conventions of the embedding:
* ISO-8601 timestamp strings are modelled as their parsed value: an `Int`
  of milliseconds since the Unix epoch.  An optional timestamp field is an
  `Option Int` (`none` = the field is absent / `undefined`).
* JavaScript truthiness on a parsed timestamp number is significant in a
  few places (`0` is falsy); the embedding keeps those checks explicit.
* `Date` arithmetic (`startOfDay`, `addHours`, `getDate`, `setHours`) is
  modelled on a fixed-offset (UTC-like) local clock; daylight-saving
  shifts are not modelled and no claim below depends on them.
* Geographic coordinates are exact decimals, modelled as rationals; the
  corridor geometry's segment lengths (`Math.sqrt`) live in `ℝ`.
-/

-- ─── Core data model (src/lib/types.ts) ────────────────────────────────────

/-- ConfidenceLevel from src/lib/types.ts. -/
inductive ConfidenceLevel where
  | confirmedLive
  | confirmedUpdated
  | scheduled
  | estimatedFreight
deriving DecidableEq, Repr

/-- DataSource from src/lib/types.ts. -/
inductive DataSource where
  | tfnswGtfsStatic
  | tfnswGtfsRtTripUpdates
  | tfnswGtfsRtVehiclePositions
  | artcFreight
  | artcFreightModelled
  | dataInfrastructureGovAu
deriving DecidableEq, Repr

/-- ConfidenceInfo from src/lib/types.ts (lastUpdated ISO string as ms). -/
structure ConfidenceInfo where
  level : ConfidenceLevel
  reason : String
  sources : List DataSource
  lastUpdated : Int
deriving DecidableEq, Repr

/-- Direction from src/lib/types.ts. -/
inductive Direction where
  | towardsNewcastle
  | towardsSydney
deriving DecidableEq, Repr

/-- ServiceType from src/lib/types.ts. -/
inductive ServiceType where
  | passenger
  | freight
deriving DecidableEq, Repr

/-- MovementStatus from src/lib/types.ts. -/
inductive MovementStatus where
  | scheduled
  | live
  | delayed
  | cancelled
  | completed
deriving DecidableEq, Repr

/-- StopCall from src/lib/types.ts; optional ISO time strings as Option Int. -/
structure StopCall where
  stopId : String
  stopName : String
  scheduledArrival : Option Int := none
  scheduledDeparture : Option Int := none
  estimatedArrival : Option Int := none
  estimatedDeparture : Option Int := none
  platform : Option String := none
  stopSequence : Int
  stopsHere : Bool
deriving DecidableEq, Repr

/-- VehiclePosition from src/lib/types.ts (coordinates as rationals). -/
structure VehiclePosition where
  lat : ℚ
  lng : ℚ
  bearing : Option ℚ := none
  speed : Option ℚ := none
  timestamp : Int
  source : DataSource
deriving DecidableEq, Repr

/-- Movement from src/lib/types.ts. -/
structure Movement where
  id : String
  tripId : Option String := none
  runId : Option String := none
  routeId : Option String := none
  serviceName : String
  operator : String
  serviceType : ServiceType
  direction : Direction
  origin : String
  destination : String
  consistType : Option String := none
  status : MovementStatus
  stops : List StopCall
  cardiffCall : Option StopCall := none
  kotaraCall : Option StopCall := none
  passesThrough : Bool
  vehiclePosition : Option VehiclePosition := none
  confidence : ConfidenceInfo
  disruptions : List String
  scheduledTime : Int
  estimatedTime : Option Int := none
  delayMinutes : Option Int := none
deriving DecidableEq, Repr

/-- FeedStatus.status values from src/lib/types.ts. -/
inductive FeedState where
  | online
  | degraded
  | offline
deriving DecidableEq, Repr

/-- FeedStatus from src/lib/types.ts. -/
structure FeedStatus where
  name : String
  source : DataSource
  status : FeedState
  lastFetched : Option Int := none
  lastSuccessful : Option Int := none
  error : Option String := none
  recordCount : Option Int := none
deriving DecidableEq, Repr

/-- StationFilter from src/lib/types.ts. -/
inductive StationFilter where
  | cardiff
  | kotara
  | both
deriving DecidableEq, Repr

/-- DirectionFilter from src/lib/types.ts. -/
inductive DirectionFilter where
  | towardsNewcastle
  | towardsSydney
  | both
deriving DecidableEq, Repr

/-- TypeFilter from src/lib/types.ts. -/
inductive TypeFilter where
  | passenger
  | freight
  | all
deriving DecidableEq, Repr

/-- StatusFilter from src/lib/types.ts. -/
inductive StatusFilter where
  | all
  | scheduled
  | live
  | delayed
  | cancelled
  | completed
deriving DecidableEq, Repr

/-- TimeWindow from src/lib/types.ts. -/
inductive TimeWindow where
  | now
  | next2h
  | today
deriving DecidableEq, Repr

/-- MovementFilters from src/lib/types.ts. -/
structure MovementFilters where
  station : StationFilter
  direction : DirectionFilter
  type : TypeFilter
  status : StatusFilter
  timeWindow : TimeWindow
deriving DecidableEq, Repr

-- ─── Date arithmetic helpers ───────────────────────────────────────────────

/-- Milliseconds in one civil day. -/
def msPerDay : Int := 86400000

/-- date-fns startOfDay on the model's fixed-offset clock. -/
def startOfDay (t : Int) : Int := msPerDay * (t.fdiv msPerDay)

/-- date-fns endOfDay: last millisecond of the day. -/
def endOfDay (t : Int) : Int := startOfDay t + (msPerDay - 1)

/-- date-fns addHours. -/
def addHours (t : Int) (h : Int) : Int := t + h * 3600000

/-- Day-of-month (1..31) of the civil date holding epoch-day z
    (Gregorian calendar, standard era decomposition). -/
def dayOfMonthOfEpochDay (z : Int) : Int :=
  let z' := z + 719468
  let era := z'.fdiv 146097
  let doe := z' - era * 146097
  let yoe := (doe - doe / 1460 + doe / 36524 - doe / 146096) / 365
  let doy := doe - (365 * yoe + yoe / 4 - yoe / 100)
  let mp := (5 * doy + 2) / 153
  doy - (153 * mp + 2) / 5 + 1

/-- JavaScript Date.prototype.getDate() (day of month) on the model clock. -/
def getDate (t : Int) : Int := dayOfMonthOfEpochDay (t.fdiv msPerDay)

-- ─── Time window calculation (src/lib/corridor.ts, getTimeWindow) ──────────

/-- getTimeWindow from src/lib/corridor.ts. -/
def getTimeWindow (w : TimeWindow) (now : Int) : Int × Int :=
  match w with
  | .now => (now - 15 * 60000, addHours now 1)
  | .next2h => (now - 5 * 60000, addHours now 2)
  | .today => (startOfDay now, endOfDay now)

-- ─── Filters (src/lib/corridor.ts, applyFilters) ───────────────────────────

/-- Station clause of applyFilters (corridor.ts lines 62-63). -/
def stationFilterPasses (f : StationFilter) (m : Movement) : Bool :=
  if f = .cardiff ∧ m.cardiffCall.isNone then false
  else if f = .kotara ∧ m.kotaraCall.isNone then false
  else true

/-- Direction clause of applyFilters (corridor.ts lines 66-67). -/
def directionFilterPasses (f : DirectionFilter) (m : Movement) : Bool :=
  match f, m.direction with
  | .both, _ => true
  | .towardsNewcastle, .towardsNewcastle => true
  | .towardsSydney, .towardsSydney => true
  | _, _ => false

/-- Type clause of applyFilters (corridor.ts lines 70-73). -/
def typeFilterPasses (f : TypeFilter) (m : Movement) : Bool :=
  if f = .passenger ∧ m.serviceType ≠ .passenger then false
  else if f = .freight ∧ m.serviceType ≠ .freight then false
  else true

/-- Status clause of applyFilters (corridor.ts line 76). -/
def statusFilterPasses (f : StatusFilter) (m : Movement) : Bool :=
  match f, m.status with
  | .all, _ => true
  | .scheduled, .scheduled => true
  | .live, .live => true
  | .delayed, .delayed => true
  | .cancelled, .cancelled => true
  | .completed, .completed => true
  | _, _ => false

/-- The combined predicate of applyFilters (corridor.ts lines 60-78):
    the four clauses short-circuit in source order. -/
def movementPassesFilters (filters : MovementFilters) (m : Movement) : Bool :=
  stationFilterPasses filters.station m &&
  directionFilterPasses filters.direction m &&
  typeFilterPasses filters.type m &&
  statusFilterPasses filters.status m

/-- applyFilters from src/lib/corridor.ts. -/
def applyFilters (movements : List Movement) (filters : MovementFilters) :
    List Movement :=
  movements.filter (movementPassesFilters filters)

-- ─── Sorting (src/lib/corridor.ts, sortMovements) ──────────────────────────

/-- Sort key of sortMovements: estimatedTime || scheduledTime. -/
def sortKey (m : Movement) : Int := (m.estimatedTime.getD m.scheduledTime)

/-- sortMovements from src/lib/corridor.ts (ascending by estimated-or-
    scheduled primary time; stable merge sort models the engine sort). -/
def sortMovements (movements : List Movement) : List Movement :=
  movements.mergeSort (fun a b => sortKey a ≤ sortKey b)

-- ─── Completion marking (src/lib/corridor.ts, markCompletedMovements) ──────

/-- The per-call departure time used by markCompletedMovements:
    estimatedDeparture || scheduledDeparture. -/
def callDeparture (c : StopCall) : Option Int :=
  c.estimatedDeparture <|> c.scheduledDeparture

/-- The latest corridor departure of markCompletedMovements (corridor.ts
    lines 99-104): collect both corridor calls' departures and take the
    maximum (sort descending, take index 0). -/
def lastCorridorDeparture (m : Movement) : Option Int :=
  (([m.cardiffCall, m.kotaraCall].filterMap id).filterMap callDeparture).max?

/-- markCompletedMovements from src/lib/corridor.ts.  The guard
    `if (lastDeparture && ...)` makes a numeric departure of exactly 0
    (the epoch instant) falsy, hence never completed. -/
def markCompletedMovements (movements : List Movement) (now : Int) :
    List Movement :=
  movements.map fun m =>
    if m.status = .cancelled then m
    else
      match lastCorridorDeparture m with
      | some lastDeparture =>
          if lastDeparture ≠ 0 ∧ lastDeparture < now - 5 * 60000 then
            if m.status ≠ .live then { m with status := .completed } else m
          else m
      | none => m

/-- Does the movement's latest (nonzero) corridor departure lie more than
    5 minutes before now? -/
def latestDeparturePast (m : Movement) (now : Int) : Bool :=
  match lastCorridorDeparture m with
  | some d => d ≠ 0 ∧ d < now - 5 * 60000
  | none => false

/-- The completion rule as one flat per-movement step: a non-cancelled,
    non-live movement whose latest (nonzero) corridor departure is more
    than 5 minutes in the past becomes completed; all else unchanged. -/
def completionStep (now : Int) (m : Movement) : Movement :=
  if m.status ≠ .cancelled ∧ m.status ≠ .live ∧ latestDeparturePast m now then
    { m with status := .completed }
  else m

-- ─── Structural string helpers ─────────────────────────────────────────────

/-- Kernel-reducible String.take. -/
def strTake (s : String) (n : Nat) : String := String.mk (s.data.take n)

/-- Kernel-reducible String.toUpper. -/
def strToUpper (s : String) : String := String.mk (s.data.map Char.toUpper)

/-- Kernel-reducible String.toLower. -/
def strToLower (s : String) : String := String.mk (s.data.map Char.toLower)

/-- Kernel-reducible startsWith: does s start with pat? -/
def charListHasStart : List Char → List Char → Bool
  | _, [] => true
  | [], _ :: _ => false
  | a :: as, b :: bs => a = b && charListHasStart as bs

/-- JavaScript String.prototype.startsWith. -/
def strStartsWith (s pat : String) : Bool := charListHasStart s.data pat.data

/-- The characters before the first occurrence of sep. -/
def takeUntilChar (sep : Char) : List Char → List Char
  | [] => []
  | c :: rest => if c = sep then [] else c :: takeUntilChar sep rest

/-- JavaScript s.split(sep)[0] for a one-character separator. -/
def headSegment (s : String) (sep : Char) : String :=
  String.mk (takeUntilChar sep s.data)

/-- JavaScript s.replace(/_/g, " "): map underscores to spaces. -/
def replaceUnderscores (s : String) : String :=
  String.mk (s.data.map fun c => if c = '_' then ' ' else c)

-- ─── Freight (src/lib/freight/artc-client.ts, src/lib/freight/types.ts) ────

/-- FreightMovement from src/lib/freight/types.ts (times as ms). -/
structure FreightMovement where
  trainId : String
  operator : String
  origin : String
  destination : String
  commodityType : Option String := none
  consistType : String
  scheduledDeparture : Option Int := none
  scheduledArrival : Option Int := none
  estimatedCardiffPass : Option Int := none
  estimatedKotaraPass : Option Int := none
  direction : Direction
  source : DataSource
  lastUpdated : Int
deriving DecidableEq, Repr

/-- FreightDataset from src/lib/freight/types.ts. -/
structure FreightDataset where
  source : String
  description : String
  lastUpdated : Int
  records : List FreightMovement
  limitations : List String
deriving DecidableEq, Repr

/-- FreightResult from src/lib/freight/artc-client.ts. -/
structure FreightResult where
  movements : List Movement
  feedStatus : FeedStatus
  limitations : List String
deriving DecidableEq, Repr

/-- Cardiff GTFS stop ids (src/lib/stations.ts, CARDIFF.stopIds). -/
def cardiffStopIds : List String := ["225521"]

/-- Kotara GTFS stop ids (src/lib/stations.ts, KOTARA.stopIds). -/
def kotaraStopIds : List String := ["225421"]

/-- Commodity table of generateModelledFreight (artc-client.ts lines 83-87). -/
def freightCommodities : List (String × Nat × String) :=
  [("Coal", 6, "Locomotive + coal wagons (approx 80 wagons)"),
   ("Intermodal", 3, "Locomotive + container wagons"),
   ("Grain", 1, "Locomotive + grain hoppers")]

/-- Operator rotation of generateModelledFreight (artc-client.ts line 82). -/
def freightOperators : List String :=
  ["Pacific National", "Aurizon", "QUBE Logistics"]

/-- Left-pad a number to 3 digits (String.padStart(3, "0")). -/
def pad3 (n : Nat) : String :=
  if n < 10 then "00" ++ toString n
  else if n < 100 then "0" ++ toString n
  else toString n

/-- One modelled freight record (the body of the inner loop of
    generateModelledFreight, artc-client.ts lines 92-141).  movementIdx
    is the running index across commodities; i the per-commodity index. -/
def modelledFreightRecord (dayStart nowT : Int) (commodity : String × Nat × String)
    (i movementIdx : Nat) : FreightMovement :=
  let baseHour : Nat := (24 / commodity.2.1) * i + 2
  let baseMinute : Nat := (i * 17 + 7) % 60
  let direction : Direction :=
    if commodity.1 = "Coal" then .towardsNewcastle
    else if i % 2 = 0 then .towardsNewcastle else .towardsSydney
  let passTime := dayStart + (baseHour : Int) * 3600000 + (baseMinute : Int) * 60000
  let cardiffPassTime :=
    if direction = .towardsNewcastle then passTime else passTime + 4 * 60000
  let kotaraPassTime :=
    if direction = .towardsNewcastle then passTime + 4 * 60000 else passTime
  { trainId := "FRT-" ++ strToUpper (strTake commodity.1 3) ++ "-" ++ pad3 (movementIdx + 1)
    operator := freightOperators.getD (movementIdx % freightOperators.length) ""
    origin :=
      if direction = .towardsNewcastle then
        if commodity.1 = "Coal" then "Hunter Valley" else "Sydney / Western NSW"
      else "Newcastle / Hunter Valley"
    destination :=
      if direction = .towardsNewcastle then "Newcastle Port / NCIG"
      else "Sydney / Western NSW"
    commodityType := some commodity.1
    consistType := commodity.2.2
    estimatedCardiffPass := some cardiffPassTime
    estimatedKotaraPass := some kotaraPassTime
    direction := direction
    source := .artcFreightModelled
    lastUpdated := nowT }

/-- generateModelledFreight from src/lib/freight/artc-client.ts: a fixed
    daily count per commodity spread across the day. -/
def generateModelledFreight (date nowT : Int) : List FreightMovement :=
  let dayStart := startOfDay date
  let rec go (cs : List (String × Nat × String)) (movementIdx : Nat) :
      List FreightMovement :=
    match cs with
    | [] => []
    | c :: rest =>
        ((List.range c.2.1).map fun i =>
          modelledFreightRecord dayStart nowT c i (movementIdx + i)) ++
        go rest (movementIdx + c.2.1)
  go freightCommodities 0

/-- freightToMovement from src/lib/freight/artc-client.ts.  nowT models
    the `new Date()` fallback for a missing primary time. -/
def freightToMovement (nowT : Int) (freight : FreightMovement) : Movement :=
  let confidence : ConfidenceInfo :=
    { level := .estimatedFreight
      reason :=
        if freight.source = .artcFreight then "From ARTC freight movement data"
        else if freight.source = .dataInfrastructureGovAu then
          "From data.infrastructure.gov.au freight dataset"
        else "Estimated from known corridor freight patterns — not real-time"
      sources := [freight.source]
      lastUpdated := freight.lastUpdated }
  let cardiffCall : Option StopCall :=
    freight.estimatedCardiffPass.map fun t =>
      { stopId := cardiffStopIds.getD 0 ""
        stopName := "Cardiff"
        scheduledDeparture := some t
        stopSequence := if freight.direction = .towardsNewcastle then 20 else 22
        stopsHere := false }
  let kotaraCall : Option StopCall :=
    freight.estimatedKotaraPass.map fun t =>
      { stopId := kotaraStopIds.getD 0 ""
        stopName := "Kotara"
        scheduledDeparture := some t
        stopSequence := 21
        stopsHere := false }
  let stops : List StopCall :=
    (match cardiffCall with | some c => [c] | none => []) ++
    (match kotaraCall with | some k => [k] | none => [])
  let primaryTime : Int :=
    if freight.direction = .towardsNewcastle then
      ((freight.estimatedCardiffPass <|> freight.estimatedKotaraPass).getD nowT)
    else
      ((freight.estimatedKotaraPass <|> freight.estimatedCardiffPass).getD nowT)
  { id := "freight-" ++ freight.trainId
    runId := some freight.trainId
    serviceName := "Freight — " ++ (freight.commodityType.getD "General")
    operator := freight.operator
    serviceType := .freight
    direction := freight.direction
    origin := freight.origin
    destination := freight.destination
    consistType := some freight.consistType
    status := .scheduled
    stops := stops
    cardiffCall := cardiffCall
    kotaraCall := kotaraCall
    passesThrough := true
    confidence := confidence
    disruptions := []
    scheduledTime := primaryTime }

/-- Limitation notes of the modelled-freight branch (artc-client.ts
    lines 254-260). -/
def freightModelLimitations : List String :=
  ["Live freight running data is not publicly available in real-time",
   "Freight movements shown are estimates based on known corridor patterns",
   "Actual freight times may vary significantly from estimates",
   "Coal, intermodal, and grain traffic patterns are based on published corridor usage data",
   "For confirmed freight times, contact ARTC or the freight operator directly"]

/-- getFreightMovements from src/lib/freight/artc-client.ts.  apiKey
    models process.env.ARTC_API_KEY; fetchOutcome the dataset a live ARTC
    fetch would return (tryArtcApi short-circuits to null with no key). -/
def getFreightMovements (apiKey : Option String)
    (fetchOutcome : Option FreightDataset) (date nowT : Int) : FreightResult :=
  let artcData : Option FreightDataset :=
    match apiKey with
    | none => none
    | some _ => fetchOutcome
  match artcData with
  | some d =>
      if d.records.length > 0 then
        { movements := d.records.map (freightToMovement nowT)
          feedStatus :=
            { name := "ARTC Freight Data"
              source := .artcFreight
              status := .online
              lastFetched := some nowT
              lastSuccessful := some nowT
              recordCount := some (d.records.length : Int) }
          limitations := d.limitations }
      else
        { movements := (generateModelledFreight date nowT).map (freightToMovement nowT)
          feedStatus :=
            { name := "Freight Data (Modelled)"
              source := .artcFreightModelled
              status := if artcData.isNone ∧ apiKey.isNone then .degraded else .online
              lastFetched := some nowT
              lastSuccessful := some nowT
              recordCount := some ((generateModelledFreight date nowT).length : Int)
              error :=
                if apiKey.isNone then
                  some "No ARTC API key configured. Using modelled freight patterns."
                else none }
          limitations := freightModelLimitations }
  | none =>
      { movements := (generateModelledFreight date nowT).map (freightToMovement nowT)
        feedStatus :=
          { name := "Freight Data (Modelled)"
            source := .artcFreightModelled
            status := if apiKey.isNone then .degraded else .online
            lastFetched := some nowT
            lastSuccessful := some nowT
            recordCount := some ((generateModelledFreight date nowT).length : Int)
            error :=
              if apiKey.isNone then
                some "No ARTC API key configured. Using modelled freight patterns."
              else none }
        limitations := freightModelLimitations }

-- ─── Service alerts (src/lib/tfnsw/service-alerts.ts) ──────────────────────

/-- One decoded active period of an alert (toLong'd protobuf values in
    epoch seconds; none = absent). -/
structure ActivePeriodRaw where
  startTs : Option Int := none
  endTs : Option Int := none
deriving DecidableEq, Repr

/-- ServiceAlert from src/lib/types.ts / service-alerts.ts. -/
structure ServiceAlert where
  id : String
  cause : String
  effect : String
  header : String
  description : String
  routeIds : List String
  tripIds : List String
  stopIds : List String
  activePeriods : List ActivePeriodRaw
  isActive : Bool
deriving DecidableEq, Repr

/-- ServiceAlertsResult from src/lib/tfnsw/service-alerts.ts. -/
structure ServiceAlertsResult where
  alerts : List ServiceAlert
  feedStatus : FeedStatus
deriving DecidableEq, Repr

/-- Does one active period cover now (service-alerts.ts lines 106-110)?
    A falsy (absent or zero) start becomes 0; a falsy end becomes
    Infinity, i.e. no upper bound. -/
def periodCovers (ap : ActivePeriodRaw) (now : Int) : Bool :=
  let startMs := (ap.startTs.getD 0) * 1000
  match ap.endTs with
  | some e => if e ≠ 0 then startMs ≤ now ∧ now ≤ e * 1000 else startMs ≤ now
  | none => startMs ≤ now

/-- The isActive computation of processServiceAlerts (service-alerts.ts
    lines 93-116): any period covers now, or there are no periods. -/
def computeIsActive (periods : List ActivePeriodRaw) (now : Int) : Bool :=
  periods.any (fun ap => periodCovers ap now) || periods.isEmpty

/-- getAlertsForMovement from src/lib/tfnsw/service-alerts.ts.  A trip or
    route id that is the empty string is falsy in the source guards. -/
def getAlertsForMovement (alerts : List ServiceAlert)
    (tripId routeId : Option String) : List ServiceAlert :=
  alerts.filter fun a =>
    if !a.isActive then false
    else if (match tripId with
             | some t => t ≠ "" && a.tripIds.contains t
             | none => false) then true
    else if (match routeId with
             | some r =>
                 r ≠ "" && a.routeIds.any (fun rid =>
                   strStartsWith r (headSegment rid '_'))
             | none => false) then true
    else false

/-- getCorridorAlerts from src/lib/tfnsw/service-alerts.ts. -/
def getCorridorAlerts (alerts : List ServiceAlert) : List ServiceAlert :=
  alerts.filter fun a =>
    a.isActive &&
    a.routeIds.any (fun rid =>
      ["CCN", "HUN", "SHL"].any (fun p => strStartsWith rid p))

/-- The disruption string rendered from one matching alert
    (corridor.ts lines 237-239): header plus parenthetical lower-cased
    cause, omitted when the cause is UNKNOWN_CAUSE. -/
def alertDisruption (a : ServiceAlert) : String :=
  if a.cause ≠ "UNKNOWN_CAUSE" then
    a.header ++ " (" ++ strToLower (replaceUnderscores a.cause) ++ ")"
  else a.header

/-- The per-movement alert attachment step of getCorridorMovements
    (corridor.ts lines 234-247). -/
def attachAlerts (allAlerts : List ServiceAlert) (m : Movement) : Movement :=
  let matching := getAlertsForMovement allAlerts m.tripId m.routeId
  if matching.length > 0 then
    { m with disruptions := m.disruptions ++ matching.map alertDisruption }
  else m

-- ─── Schedule source (src/lib/tfnsw/gtfs-static.ts) ────────────────────────

/-- A GTFS wall-clock time HH:MM:SS, already split into fields; hours may
    exceed 24 for next-day service. -/
structure GtfsTime where
  hours : Nat
  minutes : Nat
  seconds : Nat
deriving DecidableEq, Repr

/-- ParsedTrip from gtfs-static.ts. -/
structure ParsedTrip where
  tripId : String
  routeId : String
  routeShortName : String
  routeLongName : String
  serviceId : String
  directionId : String
  headsign : String
deriving DecidableEq, Repr

/-- ParsedStopTime from gtfs-static.ts (times pre-split). -/
structure ParsedStopTime where
  tripId : String
  stopId : String
  arrival : GtfsTime
  departure : GtfsTime
  sequence : Int
deriving DecidableEq, Repr

/-- ParsedSchedule from gtfs-static.ts: trips keyed by tripId, corridor
    stop-times keyed by tripId, in insertion order. -/
structure ParsedSchedule where
  trips : List (String × ParsedTrip)
  stopTimes : List (String × List ParsedStopTime)
deriving DecidableEq, Repr

/-- gtfsTimeToDate from gtfs-static.ts: project a wall-clock time (which
    may exceed 24:00:00) onto the day holding dayStart. -/
def gtfsTimeToDate (t : GtfsTime) (dayStart : Int) : Int :=
  startOfDay dayStart +
    ((t.hours * 3600 + t.minutes * 60 + t.seconds : Nat) : Int) * 1000

/-- Does the character list start with the given pattern? -/
def charListStartsWith : List Char → List Char → Bool
  | _, [] => true
  | [], _ :: _ => false
  | a :: as, b :: bs => a = b && charListStartsWith as bs

/-- Does the character list contain the pattern as a contiguous run? -/
def charListContainsRun : List Char → List Char → Bool
  | [], pat => pat.isEmpty
  | a :: rest, pat => charListStartsWith (a :: rest) pat || charListContainsRun rest pat

/-- JavaScript String.prototype.includes. -/
def strContainsSub (s pat : String) : Bool := charListContainsRun s.data pat.data

/-- The last stop-time entry whose stopId belongs to the id set — the
    reassignment loop of buildMovementsFromGTFS (gtfs-static.ts 278-281). -/
def findLastStopEntry (ids : List String) (entries : List ParsedStopTime) :
    Option ParsedStopTime :=
  entries.foldl (fun acc st => if ids.contains st.stopId then some st else acc) none

/-- Build one Movement from one trip's corridor stop-times
    (the loop body of buildMovementsFromGTFS, gtfs-static.ts 271-381);
    none models `continue`. -/
def buildMovementForTrip (schedule : ParsedSchedule) (dayStart nowT : Int)
    (tripId : String) (stopEntries : List ParsedStopTime) : Option Movement :=
  match schedule.trips.lookup tripId with
  | none => none
  | some trip =>
    let cardiffEntry := findLastStopEntry cardiffStopIds stopEntries
    let kotaraEntry := findLastStopEntry kotaraStopIds stopEntries
    if cardiffEntry.isNone && kotaraEntry.isNone then none
    else
      let direction : Direction :=
        match cardiffEntry, kotaraEntry with
        | some ce, some ke =>
            if ce.sequence < ke.sequence then .towardsNewcastle else .towardsSydney
        | _, _ =>
            if trip.directionId = "1" then .towardsSydney else .towardsNewcastle
      let cardiffCall : Option StopCall :=
        cardiffEntry.map fun ce =>
          { stopId := ce.stopId
            stopName := "Cardiff"
            scheduledArrival := some (gtfsTimeToDate ce.arrival dayStart)
            scheduledDeparture := some (gtfsTimeToDate ce.departure dayStart)
            platform :=
              if ce.stopId = "2285361" then some "1"
              else if ce.stopId = "2285362" then some "2" else none
            stopSequence := ce.sequence
            stopsHere := true }
      let kotaraCall : Option StopCall :=
        kotaraEntry.map fun ke =>
          { stopId := ke.stopId
            stopName := "Kotara"
            scheduledArrival := some (gtfsTimeToDate ke.arrival dayStart)
            scheduledDeparture := some (gtfsTimeToDate ke.departure dayStart)
            platform :=
              if ke.stopId = "2289341" then some "1"
              else if ke.stopId = "2289342" then some "2" else none
            stopSequence := ke.sequence
            stopsHere := true }
      let stops : List StopCall :=
        match cardiffCall, kotaraCall with
        | some c, some k => if c.stopSequence ≤ k.stopSequence then [c, k] else [k, c]
        | some c, none => [c]
        | none, some k => [k]
        | none, none => []
      let primaryTime : Option Int :=
        match direction with
        | .towardsNewcastle =>
            (cardiffCall.bind (fun c => c.scheduledDeparture)) <|>
            (kotaraCall.bind (fun k => k.scheduledDeparture))
        | .towardsSydney =>
            (kotaraCall.bind (fun k => k.scheduledDeparture)) <|>
            (cardiffCall.bind (fun c => c.scheduledDeparture))
      match primaryTime with
      | none => none
      | some pt =>
        if strContainsSub (strToLower trip.headsign) "empty train" then none
        else
          some
            { id := "sched-" ++ tripId
              tripId := some tripId
              runId := some (headSegment tripId '.')
              routeId := some trip.routeId
              serviceName := trip.routeShortName ++ " " ++ trip.routeLongName
              operator := "NSW TrainLink"
              serviceType := .passenger
              direction := direction
              origin :=
                if direction = .towardsNewcastle then "Central"
                else "Newcastle Interchange"
              destination :=
                if trip.headsign ≠ "" then trip.headsign
                else if direction = .towardsNewcastle then "Newcastle Interchange"
                else "Central"
              consistType :=
                some (if strStartsWith trip.routeId "HUN" then "Endeavour" else "Waratah")
              status := .scheduled
              stops := stops
              cardiffCall := cardiffCall
              kotaraCall := kotaraCall
              passesThrough := false
              confidence :=
                { level := .scheduled
                  reason := "From TfNSW GTFS static timetable"
                  sources := [.tfnswGtfsStatic]
                  lastUpdated := nowT }
              disruptions := []
              scheduledTime := pt }

/-- buildMovementsFromGTFS from gtfs-static.ts. -/
def buildMovementsFromGTFS (schedule : ParsedSchedule) (dayStart nowT : Int) :
    List Movement :=
  schedule.stopTimes.filterMap fun e =>
    buildMovementForTrip schedule dayStart nowT e.1 e.2

/-- The hardcoded fallback service table of generateFallbackSchedule
    (gtfs-static.ts lines 485-526): Cardiff hour, Cardiff minute,
    direction, destination. -/
def fallbackServices : List (Nat × Nat × Direction × String) :=
  [(4, 25, .towardsNewcastle, "Newcastle Interchange"),
   (5, 28, .towardsNewcastle, "Newcastle Interchange"),
   (6, 30, .towardsNewcastle, "Newcastle Interchange"),
   (7, 35, .towardsNewcastle, "Newcastle Interchange"),
   (8, 27, .towardsNewcastle, "Newcastle Interchange"),
   (9, 38, .towardsNewcastle, "Newcastle Interchange"),
   (10, 42, .towardsNewcastle, "Newcastle Interchange"),
   (11, 34, .towardsNewcastle, "Newcastle Interchange"),
   (12, 57, .towardsNewcastle, "Newcastle Interchange"),
   (13, 34, .towardsNewcastle, "Newcastle Interchange"),
   (14, 42, .towardsNewcastle, "Newcastle Interchange"),
   (15, 34, .towardsNewcastle, "Newcastle Interchange"),
   (16, 42, .towardsNewcastle, "Newcastle Interchange"),
   (17, 34, .towardsNewcastle, "Newcastle Interchange"),
   (18, 42, .towardsNewcastle, "Newcastle Interchange"),
   (19, 34, .towardsNewcastle, "Newcastle Interchange"),
   (20, 42, .towardsNewcastle, "Newcastle Interchange"),
   (21, 34, .towardsNewcastle, "Newcastle Interchange"),
   (22, 42, .towardsNewcastle, "Newcastle Interchange"),
   (5, 11, .towardsSydney, "Central"),
   (6, 3, .towardsSydney, "Central"),
   (7, 11, .towardsSydney, "Central"),
   (8, 3, .towardsSydney, "Central"),
   (9, 10, .towardsSydney, "Central"),
   (10, 3, .towardsSydney, "Central"),
   (11, 12, .towardsSydney, "Central"),
   (12, 3, .towardsSydney, "Central"),
   (13, 9, .towardsSydney, "Central"),
   (14, 3, .towardsSydney, "Central"),
   (15, 12, .towardsSydney, "Central"),
   (16, 3, .towardsSydney, "Central"),
   (17, 12, .towardsSydney, "Central"),
   (18, 16, .towardsSydney, "Central"),
   (19, 10, .towardsSydney, "Central"),
   (19, 48, .towardsSydney, "Central"),
   (20, 48, .towardsSydney, "Central"),
   (22, 16, .towardsSydney, "Central"),
   (23, 56, .towardsSydney, "Gosford")]

/-- Left-pad a number to 2 digits (String.padStart(2, "0")). -/
def pad2 (n : Nat) : String :=
  if n < 10 then "0" ++ toString n else toString n

/-- Direction rendered the way the source string-interpolates it. -/
def directionText (d : Direction) : String :=
  match d with
  | .towardsNewcastle => "towards-newcastle"
  | .towardsSydney => "towards-sydney"

/-- One fallback movement (loop body of generateFallbackSchedule,
    gtfs-static.ts lines 528-589). -/
def fallbackMovement (dayStart nowT : Int) (i : Nat)
    (s : Nat × Nat × Direction × String) : Movement :=
  let h := s.1
  let m := s.2.1
  let dir := s.2.2.1
  let dest := s.2.2.2
  let cardiffTime := dayStart + (h : Int) * 3600000 + (m : Int) * 60000
  let kotaraTime :=
    if dir = .towardsNewcastle then cardiffTime + 4 * 60000
    else cardiffTime - 4 * 60000
  let cardiffCall : StopCall :=
    { stopId := cardiffStopIds.getD 0 ""
      stopName := "Cardiff"
      scheduledArrival := some (cardiffTime - 60000)
      scheduledDeparture := some cardiffTime
      stopSequence := if dir = .towardsNewcastle then 20 else 22
      stopsHere := true }
  let kotaraCall : StopCall :=
    { stopId := kotaraStopIds.getD 0 ""
      stopName := "Kotara"
      scheduledArrival := some (kotaraTime - 60000)
      scheduledDeparture := some kotaraTime
      stopSequence := 21
      stopsHere := true }
  let primaryTime :=
    if dir = .towardsNewcastle then cardiffTime else kotaraTime
  { id := "fallback-" ++ toString i
    tripId := some ("fallback-" ++ directionText dir ++ "-" ++ toString h ++ "-" ++ toString m)
    runId := some ("FB" ++ pad2 h ++ pad2 m)
    routeId := some "CCN_1a"
    serviceName := "CCN Central Coast & Newcastle Line"
    operator := "NSW TrainLink"
    serviceType := .passenger
    direction := dir
    origin := if dir = .towardsNewcastle then "Central" else "Newcastle Interchange"
    destination := dest
    consistType := some "Oscar"
    status := .scheduled
    stops := if dir = .towardsNewcastle then [cardiffCall, kotaraCall] else [kotaraCall, cardiffCall]
    cardiffCall := some cardiffCall
    kotaraCall := some kotaraCall
    passesThrough := false
    confidence :=
      { level := .scheduled
        reason := "Fallback schedule — GTFS data not yet loaded"
        sources := [.tfnswGtfsStatic]
        lastUpdated := nowT }
    disruptions := []
    scheduledTime := primaryTime }

/-- Keep only movements whose primary time lies in the inclusive window
    (the final filter of getScheduledMovementsAsync and of
    generateFallbackSchedule). -/
def windowFilter (fromT toT : Int) (ms : List Movement) : List Movement :=
  ms.filter fun m => decide (fromT ≤ m.scheduledTime) && decide (m.scheduledTime ≤ toT)

/-- generateFallbackSchedule from gtfs-static.ts. -/
def generateFallbackSchedule (fromT toT nowT : Int) : List Movement :=
  let dayStart := startOfDay fromT
  windowFilter fromT toT
    (fallbackServices.enum.map fun p => fallbackMovement dayStart nowT p.1 p.2)

/-- The ambient state and injected fetch outcomes of one
    getScheduledMovementsAsync call: the module-level cache, whether its
    TTL is still fresh, and the ParsedSchedule each of the (at most two)
    fetchAndParseGTFS calls would deliver (none = fetch/parse failure). -/
structure ScheduleSourceEnv where
  cachedSchedule : Option ParsedSchedule
  cacheFresh : Bool
  fetchResult : Option ParsedSchedule
  refetchResult : Option ParsedSchedule
  now : Int
deriving DecidableEq, Repr

/-- The cache value in effect after the initial fetch step of
    getScheduledMovementsAsync (gtfs-static.ts lines 397-402): a stale
    cache entry survives a failed refetch. -/
def cacheAfterFetch (env : ScheduleSourceEnv) : Option ParsedSchedule :=
  if env.cachedSchedule.isSome && env.cacheFresh then env.cachedSchedule
  else
    match env.fetchResult with
    | some p => some p
    | none => env.cachedSchedule

/-- The movement list built for the requested date, including next-day
    movements when the window's day-of-month changes
    (gtfs-static.ts lines 407-415). -/
def scheduleDayMovements (schedule : ParsedSchedule) (nowT fromT toT : Int) :
    List Movement :=
  let dayStart := startOfDay fromT
  let ms0 := buildMovementsFromGTFS schedule dayStart nowT
  if getDate toT ≠ getDate fromT then
    ms0 ++ buildMovementsFromGTFS schedule (dayStart + msPerDay) nowT
  else ms0

/-- The movement list rebuilt from the single empty-result refetch
    (gtfs-static.ts lines 423-428); a failed refetch leaves the empty
    list in place. -/
def refetchMovements (env : ScheduleSourceEnv) (fromT : Int) : List Movement :=
  match env.refetchResult with
  | some p => buildMovementsFromGTFS p (startOfDay fromT) env.now
  | none => []

/-- getScheduledMovementsAsync from gtfs-static.ts, with all fetch
    effects injected through the environment. -/
def getScheduledMovementsAsync (env : ScheduleSourceEnv) (fromT toT : Int) :
    List Movement :=
  match cacheAfterFetch env with
  | some schedule =>
      let ms1 := scheduleDayMovements schedule env.now fromT toT
      let ms2 := if ms1.isEmpty then refetchMovements env fromT else ms1
      let ms3 := if ms2.isEmpty then generateFallbackSchedule fromT toT env.now else ms2
      windowFilter fromT toT ms3
  | none =>
      windowFilter fromT toT (generateFallbackSchedule fromT toT env.now)

-- ─── Reconciliation engine (spec §4.4) ─────────────────────────────────────

/-- Modelled from the spec: one normalized stop-time update record of the
    Realtime Update Processor (spec §4.3); src/lib/tfnsw/gtfs-realtime.ts
    is not among the sources.  Delays are in seconds, absolute updated
    times in epoch ms. -/
structure StopTimeUpdateRec where
  stopId : String
  arrivalDelay : Option Int := none
  arrivalTime : Option Int := none
  departureDelay : Option Int := none
  departureTime : Option Int := none
deriving DecidableEq, Repr

/-- Modelled from the spec: the per-trip delay-map entry
    `{cancelled: bool, perStopDelay/Time updates, timestamp}` of spec
    §4.3; src/lib/tfnsw/gtfs-realtime.ts is not among the sources. -/
structure TripDelayInfo where
  cancelled : Bool
  stopUpdates : List StopTimeUpdateRec
  timestamp : Int
deriving DecidableEq, Repr

/-- Modelled from the spec: output of processTripUpdates (spec §4.3). -/
structure TripUpdatesResult where
  updates : List (String × TripDelayInfo)
  feedStatus : FeedStatus
deriving DecidableEq, Repr

/-- Modelled from the spec: output of processVehiclePositions (spec §4.3). -/
structure VehiclePositionsResult where
  positions : List (String × VehiclePosition)
  feedStatus : FeedStatus
deriving DecidableEq, Repr

/-- Delay in whole minutes from a scheduled/estimated difference in ms
    (rounded to nearest; 180 s ↦ 3). -/
def delayMinutesOfMs (diff : Int) : Int := (diff + 30000).fdiv 60000

/-- Modelled from the spec: apply one stop-time update to a StopCall,
    "preferring an absolute updated time over a relative delay-offset
    applied to the scheduled time" (spec §4.4). -/
def applyStopTimeUpdate (c : StopCall) (u : StopTimeUpdateRec) : StopCall :=
  let estArr :=
    u.arrivalTime <|> (u.arrivalDelay.bind fun d => c.scheduledArrival.map (· + d * 1000))
  let estDep :=
    u.departureTime <|> (u.departureDelay.bind fun d => c.scheduledDeparture.map (· + d * 1000))
  { c with
    estimatedArrival := estArr <|> c.estimatedArrival
    estimatedDeparture := estDep <|> c.estimatedDeparture }

/-- Modelled from the spec: apply every update touching the given station
    ids to an optional corridor call. -/
def applyUpdatesToCall (updates : List StopTimeUpdateRec) (ids : List String)
    (oc : Option StopCall) : Option StopCall :=
  oc.map fun c =>
    (updates.filter fun u => ids.contains u.stopId).foldl applyStopTimeUpdate c

/-- Modelled from the spec: rewrite both corridor calls of a movement
    with the trip's stop-time updates (spec §4.4). -/
def applyTripUpdates (info : TripDelayInfo) (m : Movement) : Movement :=
  { m with
    cardiffCall := applyUpdatesToCall info.stopUpdates cardiffStopIds m.cardiffCall
    kotaraCall := applyUpdatesToCall info.stopUpdates kotaraStopIds m.kotaraCall }

/-- The corridor call encountered first given direction — the primary
    call (spec §3: Cardiff first towards Newcastle, Kotara first towards
    Sydney). -/
def primaryCall (m : Movement) : Option StopCall :=
  match m.direction with
  | .towardsNewcastle => m.cardiffCall
  | .towardsSydney => m.kotaraCall

/-- Modelled from the spec: the movement's recomputed delay, from the
    primary corridor call's scheduled vs. estimated departure (spec §4.4). -/
def recomputedDelay (m : Movement) : Option Int :=
  (primaryCall m).bind fun c =>
    c.scheduledDeparture.bind fun s =>
      c.estimatedDeparture.map fun e => delayMinutesOfMs (e - s)

/-- Modelled from the spec: merge of one baseline movement with the two
    realtime maps (spec §4.4): cancellation, else stop-time updates with
    delay/status/confidence recomputation, then the live-position upgrade
    applied last so confirmed-live supersedes confirmed-updated. -/
def mergeMovement (delayMap : List (String × TripDelayInfo))
    (posMap : List (String × VehiclePosition)) (nowT : Int) (m : Movement) :
    Movement :=
  let m1 :=
    match m.tripId.bind fun tid => delayMap.lookup tid with
    | none => m
    | some info =>
      if info.cancelled then
        { m with
          status := .cancelled
          confidence :=
            { level := .confirmedUpdated
              reason := "Cancelled per realtime update"
              sources := [.tfnswGtfsRtTripUpdates]
              lastUpdated := nowT }
          disruptions := m.disruptions ++ ["Cancelled per realtime update"] }
      else
        let m2 := applyTripUpdates info m
        let d := recomputedDelay m2
        { m2 with
          delayMinutes := d
          status := if d.getD 0 > 2 then .delayed else .live
          estimatedTime := (primaryCall m2).bind fun c => c.estimatedDeparture
          confidence :=
            { level := .confirmedUpdated
              reason := "Updated from realtime trip updates"
              sources := [.tfnswGtfsRtTripUpdates]
              lastUpdated := nowT } }
  match m.tripId.bind fun tid => posMap.lookup tid with
  | none => m1
  | some pos =>
    { m1 with
      vehiclePosition := some pos
      confidence :=
        { level := .confirmedLive
          reason := "Live position confirmed"
          sources := [.tfnswGtfsRtVehiclePositions]
          lastUpdated := nowT }
      status := if m1.status = .scheduled then .live else m1.status }

/-- Modelled from the spec: mergeRealtimeData (spec §4.4) — merge the
    realtime maps into every baseline movement; a movement present in
    neither map is left unchanged. -/
def mergeRealtimeData (baseline : List Movement)
    (delayMap : List (String × TripDelayInfo))
    (posMap : List (String × VehiclePosition)) (nowT : Int) : List Movement :=
  baseline.map (mergeMovement delayMap posMap nowT)

-- ─── Corridor aggregator (src/lib/corridor.ts, getCorridorMovements) ───────

/-- MovementsResponse from src/lib/types.ts (with the alerts list the
    route handler includes). -/
structure MovementsResponse where
  movements : List Movement
  feeds : List FeedStatus
  alerts : List ServiceAlert
  filters : MovementFilters
  timestamp : Int
  fallbackActive : Bool
  fallbackReason : Option String := none
deriving DecidableEq, Repr

/-- The injected effects of one aggregation cycle: the schedule source
    environment and the outcome of each awaited fetch (Except.error
    models a thrown promise rejection). -/
structure AggregatorEnv where
  now : Int
  scheduleEnv : ScheduleSourceEnv
  alertsOutcome : Except String ServiceAlertsResult
  realtimeOutcome : Except String (TripUpdatesResult × VehiclePositionsResult)
  freightOutcome : Except String (Option String × Option FreightDataset)
deriving Repr

/-- The realtime step of getCorridorMovements (corridor.ts lines
    159-206): merged movements, the two realtime feed statuses, and the
    fallback flag/reason. -/
def realtimeStep (scheduled : List Movement)
    (outcome : Except String (TripUpdatesResult × VehiclePositionsResult))
    (nowT : Int) :
    List Movement × List FeedStatus × Bool × Option String :=
  match outcome with
  | .ok (tu, vp) =>
      let movements := mergeRealtimeData scheduled tu.updates vp.positions nowT
      if tu.feedStatus.status = .offline ∧ vp.feedStatus.status = .offline then
        (movements, [tu.feedStatus, vp.feedStatus], true,
         some ("Realtime feeds are unavailable. Showing scheduled times only. " ++
               (tu.feedStatus.error.getD "") ++ " " ++ (vp.feedStatus.error.getD "")))
      else
        (movements, [tu.feedStatus, vp.feedStatus], false, none)
  | .error e =>
      let reason := "Realtime data unavailable: " ++ e ++ ". Showing scheduled times only."
      (scheduled,
       [{ name := "GTFS-RT Trip Updates"
          source := .tfnswGtfsRtTripUpdates
          status := .offline
          lastFetched := some nowT
          error := some reason },
        { name := "GTFS-RT Vehicle Positions"
          source := .tfnswGtfsRtVehiclePositions
          status := .offline
          lastFetched := some nowT
          error := some reason }], true, some reason)

/-- getCorridorMovements from src/lib/corridor.ts, with every awaited
    fetch injected through the environment. -/
def getCorridorMovements (filters : MovementFilters) (env : AggregatorEnv) :
    MovementsResponse :=
  let now := env.now
  let window := getTimeWindow filters.timeWindow now
  let fromT := window.1
  let toT := window.2
  let scheduledMovements := getScheduledMovementsAsync env.scheduleEnv fromT toT
  let scheduleFeed : FeedStatus :=
    { name := "GTFS Static Schedule"
      source := .tfnswGtfsStatic
      status := if scheduledMovements.length > 0 then .online else .degraded
      lastFetched := some now
      lastSuccessful := if scheduledMovements.length > 0 then some now else none
      recordCount := some (scheduledMovements.length : Int) }
  let alertsPart : List ServiceAlert × List ServiceAlert × List FeedStatus :=
    match env.alertsOutcome with
    | .ok r => (r.alerts, getCorridorAlerts r.alerts, [r.feedStatus])
    | .error _ =>
        ([], [],
         [{ name := "GTFS-RT Service Alerts"
            source := .tfnswGtfsStatic
            status := .offline
            lastFetched := some now
            error := some "Service alerts unavailable" }])
  let allAlerts := alertsPart.1
  let corridorAlerts := alertsPart.2.1
  let rt := realtimeStep scheduledMovements env.realtimeOutcome now
  let movements0 := rt.1
  let fallbackActive := rt.2.2.1
  let fallbackReason := rt.2.2.2
  let freightPart : List Movement × List FeedStatus :=
    if filters.type ≠ .passenger then
      match env.freightOutcome with
      | .ok (apiKey, fetched) =>
          let fr := getFreightMovements apiKey fetched now now
          (fr.movements.filter fun m =>
             decide (fromT ≤ m.scheduledTime) && decide (m.scheduledTime ≤ toT),
           [fr.feedStatus])
      | .error e =>
          ([],
           [{ name := "Freight Data"
              source := .artcFreightModelled
              status := .offline
              lastFetched := some now
              error := some ("Freight data unavailable: " ++ e) }])
    else ([], [])
  let movements1 := movements0 ++ freightPart.1
  let movements2 :=
    if allAlerts.length > 0 then movements1.map (attachAlerts allAlerts)
    else movements1
  let movements3 := markCompletedMovements movements2 now
  let movements4 := applyFilters movements3 filters
  let movements5 := sortMovements movements4
  { movements := movements5
    feeds := [scheduleFeed] ++ alertsPart.2.2 ++ rt.2.1 ++ freightPart.2
    alerts := corridorAlerts
    filters := filters
    timestamp := now
    fallbackActive := fallbackActive
    fallbackReason := fallbackReason }

-- ─── Corridor geometry (src/lib/rail-geometry.ts) ──────────────────────────

/-- The stitched OSM rail path RAIL_PATH (95 points, lat/lng as exact
    decimals). -/
def railPath : List (ℚ × ℚ) := [
  (-32.9434264, 151.6668132), (-32.9432879, 151.6681841), (-32.9432281, 151.6687582),
  (-32.9431949, 151.6690146), (-32.9431621, 151.6692311), (-32.9431287, 151.6693889),
  (-32.9430827, 151.6695713), (-32.9430198, 151.6697686), (-32.9429572, 151.6699479),
  (-32.9428732, 151.6701370), (-32.9427803, 151.6703301), (-32.9426547, 151.6705431),
  (-32.9425748, 151.6706729), (-32.9424059, 151.6708960), (-32.9422577, 151.6710587),
  (-32.9421347, 151.6711815), (-32.9419884, 151.6713172), (-32.9417590, 151.6715059),
  (-32.9412598, 151.6718906), (-32.9411714, 151.6719625), (-32.9410026, 151.6721046),
  (-32.9408704, 151.6722257), (-32.9407153, 151.6723847), (-32.9406249, 151.6724923),
  (-32.9404923, 151.6726653), (-32.9403706, 151.6728459), (-32.9402229, 151.6731053),
  (-32.9401401, 151.6732790), (-32.9400604, 151.6734689), (-32.9399925, 151.6736631),
  (-32.9399389, 151.6738474), (-32.9399169, 151.6739291), (-32.9398549, 151.6742141),
  (-32.9397921, 151.6746177), (-32.9394362, 151.6773407), (-32.9393791, 151.6778491),
  (-32.9393529, 151.6783692), (-32.9393586, 151.6788311), (-32.9393908, 151.6793428),
  (-32.9394574, 151.6798127), (-32.9395486, 151.6802978), (-32.9396612, 151.6807431),
  (-32.9398132, 151.6812140), (-32.9400007, 151.6816865), (-32.9401106, 151.6819303),
  (-32.9401952, 151.6820975), (-32.9403370, 151.6823614), (-32.9404302, 151.6825208),
  (-32.9406727, 151.6828957), (-32.9409575, 151.6832934), (-32.9412683, 151.6836761),
  (-32.9421366, 151.6845923), (-32.9432321, 151.6857501), (-32.9435605, 151.6861066),
  (-32.9439694, 151.6866098), (-32.9441074, 151.6868663), (-32.9442141, 151.6871027),
  (-32.9443963, 151.6875990), (-32.9444378, 151.6877591), (-32.9445233, 151.6880880),
  (-32.9445870, 151.6884115), (-32.9446326, 151.6887393), (-32.9446590, 151.6890490),
  (-32.9446713, 151.6893257), (-32.9446702, 151.6896357), (-32.9446427, 151.6899986),
  (-32.9445880, 151.6903892), (-32.9444858, 151.6908285), (-32.9443981, 151.6911379),
  (-32.9442243, 151.6915878), (-32.9440490, 151.6919552), (-32.9437356, 151.6925028),
  (-32.9435133, 151.6928540), (-32.9430307, 151.6936559), (-32.9427839, 151.6941147),
  (-32.9427020, 151.6943088), (-32.9425605, 151.6946441), (-32.9424125, 151.6950622),
  (-32.9423404, 151.6952890), (-32.9422332, 151.6956487), (-32.9421263, 151.6960218),
  (-32.9419355, 151.6966805), (-32.9418716, 151.6969005), (-32.9417591, 151.6972478),
  (-32.9415173, 151.6978930), (-32.9414025, 151.6982145), (-32.9413091, 151.6985301),
  (-32.9412660, 151.6986943), (-32.9412176, 151.6989054), (-32.9411780, 151.6991083),
  (-32.9411431, 151.6992998), (-32.9410682, 151.6996555), (-32.9409954, 151.6999791),
  (-32.9409176, 151.7002734), (-32.9408924, 151.7003672)
]

/-- Squared planar distance on raw coordinate degrees — the expression
    inside Math.sqrt of computeCumulativeDistances. -/
def sqDist (p q : ℚ × ℚ) : ℚ :=
  (q.1 - p.1) * (q.1 - p.1) + (q.2 - p.2) * (q.2 - p.2)

/-- The tail of the path zipped with its running cumulative distance
    (computeCumulativeDistances, rail-geometry.ts lines 202-211). -/
noncomputable def withCumDist : List (ℚ × ℚ) → (ℚ × ℚ) → ℝ → List ((ℚ × ℚ) × ℝ)
  | [], _, _ => []
  | p :: rest, prevPt, acc =>
      let acc' := acc + Real.sqrt ((sqDist prevPt p : ℚ) : ℝ)
      (p, acc') :: withCumDist rest p acc'

/-- Every path point paired with its cumulative distance (CUMULATIVE). -/
noncomputable def pathCum (path : List (ℚ × ℚ)) : List ((ℚ × ℚ) × ℝ) :=
  match path with
  | [] => []
  | p :: rest => (p, 0) :: withCumDist rest p 0

/-- Cumulative distance at a path index. -/
noncomputable def cumAt (i : Nat) : ℝ :=
  (((pathCum railPath).getD i ((0, 0), 0)).2)

/-- CARDIFF_PATH_INDEX from rail-geometry.ts. -/
def CARDIFF_PATH_INDEX : Nat := 1

/-- KOTARA_PATH_INDEX from rail-geometry.ts. -/
def KOTARA_PATH_INDEX : Nat := 60

/-- CARDIFF_TRACK_POS = RAIL_PATH[CARDIFF_PATH_INDEX]. -/
def CARDIFF_TRACK_POS : ℚ × ℚ := railPath.getD CARDIFF_PATH_INDEX (0, 0)

/-- KOTARA_TRACK_POS = RAIL_PATH[KOTARA_PATH_INDEX]. -/
def KOTARA_TRACK_POS : ℚ × ℚ := railPath.getD KOTARA_PATH_INDEX (0, 0)

/-- TOTAL_PATH_LENGTH = CUMULATIVE[CUMULATIVE.length - 1]. -/
noncomputable def TOTAL_PATH_LENGTH : ℝ := cumAt (railPath.length - 1)

/-- CARDIFF_DISTANCE = CUMULATIVE[CARDIFF_PATH_INDEX]. -/
noncomputable def CARDIFF_DISTANCE : ℝ := cumAt CARDIFF_PATH_INDEX

/-- KOTARA_DISTANCE = CUMULATIVE[KOTARA_PATH_INDEX]. -/
noncomputable def KOTARA_DISTANCE : ℝ := cumAt KOTARA_PATH_INDEX

/-- A path point cast to real coordinates. -/
def ptR (p : ℚ × ℚ) : ℝ × ℝ := ((p.1 : ℝ), (p.2 : ℝ))

/-- The search loop of interpolateOnPath (rail-geometry.ts lines
    228-238): walk the cumulative list, and at the first entry whose
    cumulative distance reaches the target, linearly interpolate inside
    that segment; past the end, return the last point. -/
noncomputable def interpGo (prev : (ℚ × ℚ) × ℝ) :
    List ((ℚ × ℚ) × ℝ) → ℝ → ℝ × ℝ
  | [], _ => ptR prev.1
  | (p, c) :: rest, target =>
      if c ≥ target then
        let segT : ℝ := if c = prev.2 then 0 else (target - prev.2) / (c - prev.2)
        ((prev.1.1 : ℝ) + ((p.1 : ℝ) - (prev.1.1 : ℝ)) * segT,
         (prev.1.2 : ℝ) + ((p.2 : ℝ) - (prev.1.2 : ℝ)) * segT)
      else interpGo (p, c) rest target

/-- interpolateOnPath from rail-geometry.ts: clamp t to [0,1], scale by
    the total length and search the cumulative table. -/
noncomputable def interpolateOnPath (t : ℝ) : ℝ × ℝ :=
  let clamped := max 0 (min 1 t)
  let target := clamped * TOTAL_PATH_LENGTH
  match pathCum railPath with
  | [] => (0, 0)
  | first :: rest => interpGo first rest target

-- ─── Position estimator (MapView, estimatePositionT) ───────────────────────

/-- The best-available time of one corridor call as read by
    estimatePositionT: estimatedDeparture || scheduledDeparture ||
    estimatedArrival || scheduledArrival. -/
def callBestTime (c : StopCall) : Option Int :=
  c.estimatedDeparture <|> c.scheduledDeparture <|> c.estimatedArrival <|>
    c.scheduledArrival

/-- The parsed corridor-call instant of estimatePositionT; none when the
    call is absent or carries no time field. -/
def movementCallTime (oc : Option StopCall) : Option Int := oc.bind callBestTime

/-- estimatePositionT from the map view: normalized corridor position
    from the two corridor-call times, with a 3-minute approach/departure
    padding; none when outside the padded window.  A parsed call time of
    exactly 0 is falsy in the source guard and yields none. -/
noncomputable def estimatePositionT (m : Movement) (now : Int) : Option ℝ :=
  match movementCallTime m.cardiffCall, movementCallTime m.kotaraCall with
  | some cardiffTime, some kotaraTime =>
    if cardiffTime = 0 ∨ kotaraTime = 0 then none
    else
      let isTowardsNewcastle := m.direction = .towardsNewcastle
      let entryTime := if isTowardsNewcastle then cardiffTime else kotaraTime
      let exitTime := if isTowardsNewcastle then kotaraTime else cardiffTime
      let entryDist : ℝ := if isTowardsNewcastle then CARDIFF_DISTANCE else KOTARA_DISTANCE
      let exitDist : ℝ := if isTowardsNewcastle then KOTARA_DISTANCE else CARDIFF_DISTANCE
      let approachStart := entryTime - 3 * 60 * 1000
      let departureEnd := exitTime + 3 * 60 * 1000
      if now < approachStart ∨ now > departureEnd then none
      else if now < entryTime then
        let approachProgress : ℝ := ((now - approachStart : Int) : ℝ) / ((3 * 60 * 1000 : Int) : ℝ)
        let approachStartDist : ℝ := if isTowardsNewcastle then 0 else TOTAL_PATH_LENGTH
        some ((approachStartDist + (entryDist - approachStartDist) * approachProgress) /
          TOTAL_PATH_LENGTH)
      else if now ≤ exitTime then
        let corridorProgress : ℝ :=
          if exitTime = entryTime then 1
          else ((now - entryTime : Int) : ℝ) / ((exitTime - entryTime : Int) : ℝ)
        some ((entryDist + (exitDist - entryDist) * corridorProgress) / TOTAL_PATH_LENGTH)
      else
        let departProgress : ℝ := ((now - exitTime : Int) : ℝ) / ((3 * 60 * 1000 : Int) : ℝ)
        let departEndDist : ℝ := if isTowardsNewcastle then TOTAL_PATH_LENGTH else 0
        some ((exitDist + (departEndDist - exitDist) * departProgress) / TOTAL_PATH_LENGTH)
  | _, _ => none

/-- The direction-ordered corridor entry instant of estimatePositionT. -/
def corridorEntryTime (m : Movement) (ct kt : Int) : Int :=
  if m.direction = .towardsNewcastle then ct else kt

/-- The direction-ordered corridor exit instant of estimatePositionT. -/
def corridorExitTime (m : Movement) (ct kt : Int) : Int :=
  if m.direction = .towardsNewcastle then kt else ct

/-- The direction-ordered entry-station distance of estimatePositionT. -/
noncomputable def corridorEntryDist (m : Movement) : ℝ :=
  if m.direction = .towardsNewcastle then CARDIFF_DISTANCE else KOTARA_DISTANCE

/-- The direction-ordered exit-station distance of estimatePositionT. -/
noncomputable def corridorExitDist (m : Movement) : ℝ :=
  if m.direction = .towardsNewcastle then KOTARA_DISTANCE else CARDIFF_DISTANCE

/-- The path-end distance where the approach padding starts. -/
noncomputable def corridorPadStartDist (m : Movement) : ℝ :=
  if m.direction = .towardsNewcastle then 0 else TOTAL_PATH_LENGTH

/-- The path-end distance where the departure padding ends. -/
noncomputable def corridorPadEndDist (m : Movement) : ℝ :=
  if m.direction = .towardsNewcastle then TOTAL_PATH_LENGTH else 0

-- ─── Concrete instances used by counterexamples and witnesses ──────────────

/-- A Cardiff call whose scheduled departure parses to the numeric 0
    (1970-01-01T00:00:00.000Z). -/
def epochCall : StopCall :=
  { stopId := "225521"
    stopName := "Cardiff"
    scheduledDeparture := some 0
    stopSequence := 20
    stopsHere := true }

/-- A plain scheduled movement whose only corridor departure is the epoch
    instant. -/
def mvEpochDeparture : Movement :=
  { id := "m-epoch"
    serviceName := "svc"
    operator := "NSW TrainLink"
    serviceType := .passenger
    direction := .towardsNewcastle
    origin := "Central"
    destination := "Newcastle Interchange"
    status := .scheduled
    stops := [epochCall]
    cardiffCall := some epochCall
    passesThrough := false
    confidence :=
      { level := .scheduled
        reason := "From TfNSW GTFS static timetable"
        sources := [.tfnswGtfsStatic]
        lastUpdated := 0 }
    disruptions := []
    scheduledTime := 0 }

/-- A plain scheduled movement departing Cardiff at t = 600000 ms. -/
def mvBase : Movement :=
  { id := "m-base"
    tripId := some "trip-1"
    serviceName := "svc"
    operator := "NSW TrainLink"
    serviceType := .passenger
    direction := .towardsNewcastle
    origin := "Central"
    destination := "Newcastle Interchange"
    status := .scheduled
    stops :=
      [{ stopId := "225521"
         stopName := "Cardiff"
         scheduledDeparture := some 600000
         stopSequence := 20
         stopsHere := true }]
    cardiffCall :=
      some
        { stopId := "225521"
          stopName := "Cardiff"
          scheduledDeparture := some 600000
          stopSequence := 20
          stopsHere := true }
    passesThrough := false
    confidence :=
      { level := .scheduled
        reason := "From TfNSW GTFS static timetable"
        sources := [.tfnswGtfsStatic]
        lastUpdated := 0 }
    disruptions := []
    scheduledTime := 600000 }

/-- The trip-delay entry behind delayMap180. -/
def info180 : TripDelayInfo :=
  { cancelled := false
    stopUpdates := [{ stopId := "225521", departureDelay := some 180 }]
    timestamp := 0 }

/-- A delay map giving trip-1 a 180-second departure delay at Cardiff. -/
def delayMap180 : List (String × TripDelayInfo) :=
  [("trip-1", info180)]

/-- A position map carrying a live position for trip-1. -/
def posMapTrip1 : List (String × VehiclePosition) :=
  [("trip-1",
    { lat := -32943 / 1000
      lng := 1516681 / 10000
      timestamp := 700000
      source := .tfnswGtfsRtVehiclePositions })]

/-- The first modelled freight record of the day (coal train 1). -/
def freightSample : Movement :=
  freightToMovement 0
    (modelledFreightRecord 0 0
      ("Coal", 6, "Locomotive + coal wagons (approx 80 wagons)") 0 0)

/-- An alert whose single active period ended at epoch second 50. -/
def staleAlert : ServiceAlert :=
  { id := "al-1"
    cause := "MAINTENANCE"
    effect := "SIGNIFICANT_DELAYS"
    header := "Track work"
    description := ""
    routeIds := ["CCN_1a"]
    tripIds := ["trip-1"]
    stopIds := []
    activePeriods := [{ startTs := some 10, endTs := some 50 }]
    isActive := false }

/-- The empty parsed schedule. -/
def emptySchedule : ParsedSchedule := { trips := [], stopTimes := [] }

/-- Schedule-source state: a fresh cache holding the empty schedule and
    both fetches failing. -/
def envScheduleEmpty : ScheduleSourceEnv :=
  { cachedSchedule := some emptySchedule
    cacheFresh := true
    fetchResult := none
    refetchResult := none
    now := 0 }

/-- A parsed trip on the CCN route. -/
def tripNoon : ParsedTrip :=
  { tripId := "t1"
    routeId := "CCN_1a"
    routeShortName := "CCN"
    routeLongName := "Central Coast & Newcastle Line"
    serviceId := "sid"
    directionId := "0"
    headsign := "Newcastle Interchange" }

/-- A schedule holding one trip calling at Cardiff at 12:00:00. -/
def schedNoon : ParsedSchedule :=
  { trips := [("t1", tripNoon)]
    stopTimes :=
      [("t1",
        [{ tripId := "t1"
           stopId := "225521"
           arrival := { hours := 12, minutes := 0, seconds := 0 }
           departure := { hours := 12, minutes := 0, seconds := 0 }
           sequence := 20 }])] }

/-- Schedule-source state: a fresh cache holding schedNoon. -/
def envSchedNoon : ScheduleSourceEnv :=
  { cachedSchedule := some schedNoon
    cacheFresh := true
    fetchResult := none
    refetchResult := none
    now := 0 }

/-- Window start for the C5 counterexample: 1970-01-01 18:00. -/
def c5From : Int := 64800000

/-- Window end for the C5 counterexample: 1970-02-01 18:00 — a full month
    later, so the day-of-month coincides while the window spans midnight. -/
def c5To : Int := 2743200000

/-- A movement with usable times at both corridor stations: Cardiff at
    600000 ms, Kotara at 900000 ms, towards Newcastle. -/
def mvC7 : Movement :=
  { mvBase with
    kotaraCall :=
      some
        { stopId := "225421"
          stopName := "Kotara"
          scheduledDeparture := some 900000
          stopSequence := 21
          stopsHere := true } }

/-- The Cardiff call of mvBase after the 180-second departure delay is
    applied. -/
def updatedCardiffCall : StopCall :=
  { stopId := "225521"
    stopName := "Cardiff"
    scheduledDeparture := some 600000
    estimatedDeparture := some 780000
    stopSequence := 20
    stopsHere := true }

/-- Wide-open filter set (both/all, full-day window). -/
def filtersAll : MovementFilters :=
  { station := .both
    direction := .both
    type := .all
    status := .all
    timeWindow := .today }

/-- An offline trip-updates feed status. -/
def tuOffline : TripUpdatesResult :=
  { updates := []
    feedStatus :=
      { name := "GTFS-RT Trip Updates"
        source := .tfnswGtfsRtTripUpdates
        status := .offline
        error := some "HTTP 401" } }

/-- An offline vehicle-positions feed status. -/
def vpOffline : VehiclePositionsResult :=
  { positions := []
    feedStatus :=
      { name := "GTFS-RT Vehicle Positions"
        source := .tfnswGtfsRtVehiclePositions
        status := .offline
        error := some "HTTP 401" } }

/-- An aggregation cycle in which both realtime feeds report offline. -/
def envBothOffline : AggregatorEnv :=
  { now := 0
    scheduleEnv := envScheduleEmpty
    alertsOutcome := .error "alerts down"
    realtimeOutcome := .ok (tuOffline, vpOffline)
    freightOutcome := .error "freight down" }

-- ─── Theorems ──────────────────────────────────────────────────────────────

/-- C9: applyFilters is idempotent — filtering an already-filtered list
    with the same filter set returns it unchanged — and each of the
    station, direction, type and status clauses passes every movement
    when its filter value is the bypass value (both / all). -/
theorem applyFilters_idempotent_and_bypass :
    (∀ (ms : List Movement) (f : MovementFilters),
        applyFilters (applyFilters ms f) f = applyFilters ms f) ∧
    (∀ m : Movement, stationFilterPasses .both m = true) ∧
    (∀ m : Movement, directionFilterPasses .both m = true) ∧
    (∀ m : Movement, typeFilterPasses .all m = true) ∧
    (∀ m : Movement, statusFilterPasses .all m = true) := by
  refine ⟨?_, ?_, ?_, ?_, ?_⟩
  · intro ms f
    simp [applyFilters, List.filter_filter]
  · intro m
    simp [stationFilterPasses]
  · intro m
    rfl
  · intro m
    simp [typeFilterPasses]
  · intro m
    rfl

/-- Pointwise agreement between the source's nested completion branching
    and the flat completion rule. -/
theorem completionStep_agrees (now : Int) (m : Movement) :
    (if m.status = .cancelled then m
     else
       match lastCorridorDeparture m with
       | some lastDeparture =>
           if lastDeparture ≠ 0 ∧ lastDeparture < now - 5 * 60000 then
             if m.status ≠ .live then { m with status := .completed } else m
           else m
       | none => m) = completionStep now m := by
  unfold completionStep latestDeparturePast
  rcases h : lastCorridorDeparture m with _ | d
  · by_cases hc : m.status = .cancelled <;> simp [hc, h]
  · by_cases hc : m.status = .cancelled
    · simp [hc, h]
    · by_cases hl : m.status = .live
      · simp [hc, hl, h]
      · by_cases hd : d ≠ 0 ∧ d < now - 5 * 60000 <;> simp [hc, hl, h, hd]

/-- C2 (amended): markCompletedMovements maps the completion rule over
    the list: a non-cancelled, non-live movement whose latest corridor
    departure (estimated over scheduled) exists, is nonzero, and is more
    than 5 minutes before now becomes completed; every other movement is
    returned unchanged. -/
theorem markCompleted_eq_map_completionStep (ms : List Movement) (now : Int) :
    markCompletedMovements ms now = ms.map (completionStep now) := by
  unfold markCompletedMovements
  induction ms with
  | nil => rfl
  | cons m rest ih =>
      simp only [List.map_cons]
      rw [completionStep_agrees now m] at *
      exact congrArg (completionStep now m :: ·) ih

/-- C2 counterexample: a scheduled movement whose (nonzero-checked) latest
    corridor departure is exactly the epoch instant 0, with now far past
    5 minutes: the claim demands status completed, but the source's
    truthiness guard leaves the movement unchanged. -/
theorem markCompleted_epoch_departure_unchanged :
    mvEpochDeparture.status ≠ .cancelled ∧
    mvEpochDeparture.status ≠ .live ∧
    lastCorridorDeparture mvEpochDeparture = some 0 ∧
    (0 : Int) < 10000000 - 5 * 60000 ∧
    markCompletedMovements [mvEpochDeparture] 10000000 = [mvEpochDeparture] ∧
    mvEpochDeparture.status = .scheduled := by
  refine ⟨by decide, by decide, by decide, by decide, ?_, rfl⟩
  decide

/-- Every movement freightToMovement produces is estimated-freight,
    passes through, and stops nowhere in the corridor. -/
theorem freightToMovement_props (nowT : Int) (f : FreightMovement) :
    (freightToMovement nowT f).confidence.level = .estimatedFreight ∧
    (freightToMovement nowT f).passesThrough = true ∧
    (∀ c ∈ (freightToMovement nowT f).stops, c.stopsHere = false) ∧
    (∀ c, (freightToMovement nowT f).cardiffCall = some c → c.stopsHere = false) ∧
    (∀ c, (freightToMovement nowT f).kotaraCall = some c → c.stopsHere = false) := by
  unfold freightToMovement
  rcases hc : f.estimatedCardiffPass with _ | tc <;>
    rcases hk : f.estimatedKotaraPass with _ | tk <;>
      simp_all

/-- C6: every movement getFreightMovements returns carries confidence
    level estimated-freight, passesThrough true, and no corridor
    stop-call with stopsHere = true; with no ARTC_API_KEY configured the
    returned FeedStatus.error reports the missing configuration. -/
theorem getFreightMovements_estimated_and_unconfigured :
    (∀ (apiKey : Option String) (fetched : Option FreightDataset) (date nowT : Int),
        ∀ m ∈ (getFreightMovements apiKey fetched date nowT).movements,
          m.confidence.level = .estimatedFreight ∧ m.passesThrough = true ∧
          (∀ c ∈ m.stops, c.stopsHere = false) ∧
          (∀ c, m.cardiffCall = some c → c.stopsHere = false) ∧
          (∀ c, m.kotaraCall = some c → c.stopsHere = false)) ∧
    (∀ (fetched : Option FreightDataset) (date nowT : Int),
        (getFreightMovements none fetched date nowT).feedStatus.error =
          some "No ARTC API key configured. Using modelled freight patterns.") := by
  constructor
  · intro apiKey fetched date nowT m hm
    have hex : ∃ f, freightToMovement nowT f = m := by
      rcases apiKey with _ | k
      · simp only [getFreightMovements] at hm
        obtain ⟨f, _, hf⟩ := List.mem_map.mp hm
        exact ⟨f, hf⟩
      · rcases fetched with _ | d
        · simp only [getFreightMovements] at hm
          obtain ⟨f, _, hf⟩ := List.mem_map.mp hm
          exact ⟨f, hf⟩
        · by_cases hrec : d.records.length > 0 <;>
            simp only [getFreightMovements, hrec, if_true, if_false, reduceIte] at hm <;>
            obtain ⟨f, _, hf⟩ := List.mem_map.mp hm <;>
            exact ⟨f, hf⟩
    obtain ⟨f, rfl⟩ := hex
    exact freightToMovement_props nowT f
  · intro fetched date nowT
    rfl

/-- C6 witness: with no API key configured, the first modelled coal
    movement is in the result, is estimated-freight, and the feed error
    reports the missing configuration. -/
theorem getFreightMovements_witness :
    freightSample ∈ (getFreightMovements none none 0 0).movements ∧
    freightSample.confidence.level = .estimatedFreight ∧
    (getFreightMovements none none 0 0).feedStatus.error =
      some "No ARTC API key configured. Using modelled freight patterns." := by
  have hmem : freightSample ∈ (getFreightMovements none none 0 0).movements := by
    have h : (getFreightMovements none none 0 0).movements.head? = some freightSample := by
      rfl
    exact List.mem_of_mem_head? (by rw [h]; rfl)
  exact ⟨hmem,
    (getFreightMovements_estimated_and_unconfigured.1 none none 0 0 freightSample hmem).1,
    getFreightMovements_estimated_and_unconfigured.2 none 0 0⟩

/-- C10: every alert getAlertsForMovement returns has isActive = true; an
    alert whose active periods are nonempty yet cover no instant now is
    computed inactive by the alert processor; and movements keep their
    disruption list unchanged when every supplied alert is inactive, even
    if trip/route identifiers match. -/
theorem getAlertsForMovement_only_active :
    (∀ (alerts : List ServiceAlert) (t r : Option String) (a : ServiceAlert),
        a ∈ getAlertsForMovement alerts t r → a.isActive = true) ∧
    (∀ (periods : List ActivePeriodRaw) (now : Int),
        periods ≠ [] → (∀ ap ∈ periods, periodCovers ap now = false) →
        computeIsActive periods now = false) ∧
    (∀ (alerts : List ServiceAlert) (m : Movement),
        (∀ a ∈ alerts, a.isActive = false) → attachAlerts alerts m = m) := by
  refine ⟨?_, ?_, ?_⟩
  · intro alerts t r a ha
    have hp := List.of_mem_filter ha
    by_cases h : a.isActive
    · exact h
    · simp [h] at hp
  · intro periods now hne hcov
    unfold computeIsActive
    have h1 : periods.any (fun ap => periodCovers ap now) = false := by
      simp only [List.any_eq_false]
      intro ap hap
      simp [hcov ap hap]
    have h2 : periods.isEmpty = false := by
      simpa [List.isEmpty_iff] using hne
    simp [h1, h2]
  · intro alerts m hall
    unfold attachAlerts
    have hfil : getAlertsForMovement alerts m.tripId m.routeId = [] := by
      unfold getAlertsForMovement
      rw [List.filter_eq_nil_iff]
      intro a ha
      simp [hall a ha]
    simp [hfil]

/-- C10 witness: the stale alert (period over at second 50, checked at
    now = 100000 ms) is computed inactive, matches no movement even with
    an exact trip-id match, and leaves a movement's disruptions alone. -/
theorem getAlertsForMovement_witness :
    computeIsActive staleAlert.activePeriods 100000 = false ∧
    getAlertsForMovement [staleAlert] (some "trip-1") (some "CCN_1a") = [] ∧
    attachAlerts [staleAlert] mvBase = mvBase := by
  refine ⟨?_, ?_, ?_⟩
  · exact getAlertsForMovement_only_active.2.1 staleAlert.activePeriods 100000
      (by decide) (by decide)
  · have h := getAlertsForMovement_only_active.1 [staleAlert]
      (some "trip-1") (some "CCN_1a")
    rcases hres : getAlertsForMovement [staleAlert] (some "trip-1") (some "CCN_1a")
      with _ | ⟨a, rest⟩
    · rfl
    · exfalso
      have ha : a ∈ getAlertsForMovement [staleAlert] (some "trip-1") (some "CCN_1a") := by
        rw [hres]; exact List.mem_cons_self a rest
      have := h a ha
      have hsub : a ∈ [staleAlert] :=
        List.mem_of_mem_filter (by rw [getAlertsForMovement] at ha; exact ha)
      simp at hsub
      subst hsub
      simp [staleAlert] at this
  · exact getAlertsForMovement_only_active.2.2 [staleAlert] mvBase
      (by intro a ha; simp at ha; subst ha; rfl)

/-- C1 (amended): merging a baseline movement whose trip id is in the
    delay map, is not flagged cancelled, and has no live position entry
    recomputes delayMinutes from the primary corridor call's scheduled
    vs. estimated departure, sets status to delayed exactly when that
    delay exceeds 2 minutes and to live otherwise, and sets confidence
    level confirmed-updated. -/
theorem mergeRealtimeData_delay_update
    (baseline : List Movement) (delayMap : List (String × TripDelayInfo))
    (posMap : List (String × VehiclePosition)) (nowT : Int)
    (i : Nat) (hi : i < baseline.length)
    (tid : String) (info : TripDelayInfo)
    (htid : (baseline.get ⟨i, hi⟩).tripId = some tid)
    (hinfo : delayMap.lookup tid = some info)
    (hcanc : info.cancelled = false)
    (hpos : posMap.lookup tid = none)
    (c : StopCall) (s e : Int)
    (hprim : primaryCall (applyTripUpdates info (baseline.get ⟨i, hi⟩)) = some c)
    (hs : c.scheduledDeparture = some s)
    (he : c.estimatedDeparture = some e) :
    ∃ hlen : i < (mergeRealtimeData baseline delayMap posMap nowT).length,
      ((mergeRealtimeData baseline delayMap posMap nowT).get ⟨i, hlen⟩).delayMinutes =
          some (delayMinutesOfMs (e - s)) ∧
      ((mergeRealtimeData baseline delayMap posMap nowT).get ⟨i, hlen⟩).status =
          (if delayMinutesOfMs (e - s) > 2 then MovementStatus.delayed else .live) ∧
      ((mergeRealtimeData baseline delayMap posMap nowT).get ⟨i, hlen⟩).confidence.level =
          .confirmedUpdated := by
  have hlen : i < (mergeRealtimeData baseline delayMap posMap nowT).length := by
    simpa [mergeRealtimeData] using hi
  refine ⟨hlen, ?_⟩
  have hout : (mergeRealtimeData baseline delayMap posMap nowT).get ⟨i, hlen⟩ =
      mergeMovement delayMap posMap nowT (baseline.get ⟨i, hi⟩) := by
    simp [mergeRealtimeData]
  rw [hout]
  set m := baseline.get ⟨i, hi⟩ with hm
  have hbind1 : m.tripId.bind (fun tid => delayMap.lookup tid) = some info := by
    rw [htid]
    simpa using hinfo
  have hbind2 : m.tripId.bind (fun tid => posMap.lookup tid) = none := by
    rw [htid]
    simpa using hpos
  have hdelay : recomputedDelay (applyTripUpdates info m) =
      some (delayMinutesOfMs (e - s)) := by
    simp [recomputedDelay, hprim, hs, he]
  simp [mergeMovement, hbind1, hbind2, hcanc, hdelay]

/-- C1 counterexample: a movement present in both the delay map and the
    position map ends the merge with confidence confirmed-live, not
    confirmed-updated, because the spec's position upgrade is applied
    after — and supersedes — the delay update. -/
theorem mergeRealtimeData_position_supersedes :
    mvBase.tripId = some "trip-1" ∧
    delayMap180.lookup "trip-1" = some info180 ∧
    info180.cancelled = false ∧
    (mergeRealtimeData [mvBase] delayMap180 posMapTrip1 0).map
        (fun m => m.confidence.level) = [.confirmedLive] ∧
    ConfidenceLevel.confirmedLive ≠ .confirmedUpdated := by
  refine ⟨rfl, by decide, rfl, by decide, by decide⟩

/-- C1 witness (the spec's 180-second scenario): the movement departing
    Cardiff at 600000 ms with a 180-second departure delay merges to
    delayMinutes = 3, status delayed, confidence confirmed-updated. -/
theorem mergeRealtimeData_delay_update_witness :
    ((mergeRealtimeData [mvBase] delayMap180 [] 3).getD 0 mvBase).delayMinutes = some 3 ∧
    ((mergeRealtimeData [mvBase] delayMap180 [] 3).getD 0 mvBase).status = .delayed ∧
    ((mergeRealtimeData [mvBase] delayMap180 [] 3).getD 0 mvBase).confidence.level =
      .confirmedUpdated := by
  obtain ⟨hlen, h1, h2, h3⟩ :=
    mergeRealtimeData_delay_update [mvBase] delayMap180 [] 3 0 (by decide)
      "trip-1" info180 (by decide) (by decide) rfl rfl
      updatedCardiffCall 600000 780000 (by decide) rfl rfl
  have hg : (mergeRealtimeData [mvBase] delayMap180 [] 3).getD 0 mvBase =
      (mergeRealtimeData [mvBase] delayMap180 [] 3).get ⟨0, hlen⟩ := by
    simp [List.getD_eq_getElem?_getD, List.getElem?_eq_getElem hlen,
      List.get_eq_getElem]
  rw [hg]
  refine ⟨by rw [h1]; decide, by rw [h2]; decide, h3⟩

/-- C3: the aggregator's fallbackActive flag is raised exactly when the
    realtime fetch throws or both realtime feed statuses are offline in
    the same cycle, and whenever it is raised the response carries a
    nonempty fallbackReason string. -/
theorem getCorridorMovements_fallback (filters : MovementFilters)
    (env : AggregatorEnv) :
    ((getCorridorMovements filters env).fallbackActive = true ↔
      (match env.realtimeOutcome with
       | .error _ => True
       | .ok (tu, vp) =>
           tu.feedStatus.status = .offline ∧ vp.feedStatus.status = .offline)) ∧
    ((getCorridorMovements filters env).fallbackActive = true →
      ∃ s, (getCorridorMovements filters env).fallbackReason = some s ∧
        s.length > 0) := by
  have hact : (getCorridorMovements filters env).fallbackActive =
      (realtimeStep (getScheduledMovementsAsync env.scheduleEnv
        (getTimeWindow filters.timeWindow env.now).1
        (getTimeWindow filters.timeWindow env.now).2) env.realtimeOutcome env.now).2.2.1 := by
    rfl
  have hreas : (getCorridorMovements filters env).fallbackReason =
      (realtimeStep (getScheduledMovementsAsync env.scheduleEnv
        (getTimeWindow filters.timeWindow env.now).1
        (getTimeWindow filters.timeWindow env.now).2) env.realtimeOutcome env.now).2.2.2 := by
    rfl
  rcases hrt : env.realtimeOutcome with e | ⟨tu, vp⟩
  · rw [hact, hreas, hrt]
    constructor
    · simp [realtimeStep]
    · intro _
      refine ⟨"Realtime data unavailable: " ++ e ++ ". Showing scheduled times only.",
        by simp [realtimeStep], ?_⟩
      simp only [String.length_append]
      have h1 : 0 < "Realtime data unavailable: ".length := by decide
      omega
  · rw [hact, hreas, hrt]
    by_cases hoff : tu.feedStatus.status = .offline ∧ vp.feedStatus.status = .offline
    · constructor
      · simp [realtimeStep, hoff]
      · intro _
        refine ⟨"Realtime feeds are unavailable. Showing scheduled times only. " ++
            tu.feedStatus.error.getD "" ++ " " ++ vp.feedStatus.error.getD "",
          by simp [realtimeStep, hoff], ?_⟩
        simp only [String.length_append]
        have h1 : 0 < "Realtime feeds are unavailable. Showing scheduled times only. ".length := by
          decide
        omega
    · constructor
      · simp [realtimeStep, hoff]
      · intro hcontra
        simp [realtimeStep, hoff] at hcontra

/-- C3 witness: with both realtime feeds offline, fallbackActive is true
    and the fallbackReason string is present and nonempty. -/
theorem getCorridorMovements_fallback_witness :
    (getCorridorMovements filtersAll envBothOffline).fallbackActive = true ∧
    ∃ s, (getCorridorMovements filtersAll envBothOffline).fallbackReason = some s ∧
      s.length > 0 := by
  have h := getCorridorMovements_fallback filtersAll envBothOffline
  have hup : (getCorridorMovements filtersAll envBothOffline).fallbackActive = true := by
    apply h.1.mpr
    show (match (Except.ok (tuOffline, vpOffline) :
        Except String (TripUpdatesResult × VehiclePositionsResult)) with
      | .error _ => True
      | .ok (tu, vp) =>
          tu.feedStatus.status = .offline ∧ vp.feedStatus.status = .offline)
    exact ⟨rfl, rfl⟩
  exact ⟨hup, h.2 hup⟩

/-- Membership in a window-filtered list gives the inclusive bounds. -/
theorem windowFilter_mem {fromT toT : Int} {l : List Movement} {m : Movement}
    (h : m ∈ windowFilter fromT toT l) :
    fromT ≤ m.scheduledTime ∧ m.scheduledTime ≤ toT := by
  have hp := List.of_mem_filter h
  simp only [Bool.and_eq_true, decide_eq_true_eq] at hp
  exact hp

/-- C4 (amended): when the movements built for the requested date come up
    empty and the rebuilt list from the single refetch is empty too, the
    schedule source substitutes the built-in fallback timetable — but the
    result is still window-filtered, so it can be empty for a window
    containing no fallback service. -/
theorem getScheduledMovementsAsync_fallback_substitution
    (env : ScheduleSourceEnv) (fromT toT : Int) (sched : ParsedSchedule)
    (h1 : cacheAfterFetch env = some sched)
    (h2 : scheduleDayMovements sched env.now fromT toT = [])
    (h3 : refetchMovements env fromT = []) :
    getScheduledMovementsAsync env fromT toT =
      windowFilter fromT toT (generateFallbackSchedule fromT toT env.now) := by
  unfold getScheduledMovementsAsync
  rw [h1]
  simp [h2, h3]

/-- C4 counterexample: a fresh cache whose parsed day builds no
    movements and a failing refetch, asked for the window 00:00–01:00:
    the fallback table has no service before 04:25, so the returned list
    is empty. -/
theorem getScheduledMovementsAsync_empty_result :
    getScheduledMovementsAsync envScheduleEmpty 0 3600000 = [] := by
  decide

/-- C4 witness: over the full first day the same degraded source
    substitutes the (nonempty) fallback timetable. -/
theorem getScheduledMovementsAsync_fallback_substitution_witness :
    cacheAfterFetch envScheduleEmpty = some emptySchedule ∧
    scheduleDayMovements emptySchedule 0 0 86399999 = [] ∧
    refetchMovements envScheduleEmpty 0 = [] ∧
    getScheduledMovementsAsync envScheduleEmpty 0 86399999 =
      windowFilter 0 86399999 (generateFallbackSchedule 0 86399999 0) := by
  refine ⟨rfl, by decide, rfl, ?_⟩
  exact getScheduledMovementsAsync_fallback_substitution envScheduleEmpty 0 86399999
    emptySchedule rfl (by decide) rfl

/-- C5 (amended): every movement getScheduledMovementsAsync returns has
    its scheduledTime inside [fromT, toT] (both ends inclusive), and
    movements projected onto the following day are considered exactly
    when the window endpoints differ in day-of-month (to.getDate() !==
    from.getDate()), which coincides with spanning midnight for windows
    shorter than a month. -/
theorem getScheduledMovementsAsync_window_inclusion
    (env : ScheduleSourceEnv) (fromT toT : Int) :
    (∀ m ∈ getScheduledMovementsAsync env fromT toT,
        fromT ≤ m.scheduledTime ∧ m.scheduledTime ≤ toT) ∧
    (∀ sched, cacheAfterFetch env = some sched →
        getDate toT ≠ getDate fromT →
        scheduleDayMovements sched env.now fromT toT ≠ [] →
        getScheduledMovementsAsync env fromT toT =
          windowFilter fromT toT
            (buildMovementsFromGTFS sched (startOfDay fromT) env.now ++
             buildMovementsFromGTFS sched (startOfDay fromT + msPerDay) env.now)) := by
  constructor
  · intro m hm
    unfold getScheduledMovementsAsync at hm
    rcases hc : cacheAfterFetch env with _ | sched
    · rw [hc] at hm
      exact windowFilter_mem hm
    · rw [hc] at hm
      exact windowFilter_mem hm
  · intro sched h1 hd hne
    unfold getScheduledMovementsAsync
    rw [h1]
    have hne' : (scheduleDayMovements sched env.now fromT toT).isEmpty = false := by
      simpa [List.isEmpty_iff] using hne
    have hms1 : scheduleDayMovements sched env.now fromT toT =
        buildMovementsFromGTFS sched (startOfDay fromT) env.now ++
          buildMovementsFromGTFS sched (startOfDay fromT + msPerDay) env.now := by
      unfold scheduleDayMovements
      simp [hd]
    simp only [hne', Bool.false_eq_true, if_false, reduceIte]
    rw [hms1]

/-- C5 counterexample: a window from 1970-01-01 18:00 to 1970-02-01
    18:00 spans midnight (the endpoints lie on different days), and the
    cached trip's next-day projection (noon on Jan 2, 129600000 ms) lies
    inside the window, yet the result is empty: the source compares
    day-of-month, which is equal a month apart, and never builds the
    following day. -/
theorem getScheduledMovementsAsync_monthwrap :
    startOfDay c5From ≠ startOfDay c5To ∧
    getDate c5From = getDate c5To ∧
    (buildMovementsFromGTFS schedNoon (startOfDay c5From + msPerDay) 0).map
        (fun m => m.scheduledTime) = [129600000] ∧
    c5From ≤ (129600000 : Int) ∧ (129600000 : Int) ≤ c5To ∧
    getScheduledMovementsAsync envSchedNoon c5From c5To = [] := by
  decide

/-- C5 witness: with the noon trip cached, the full-day query returns
    movements inside the window, and a short window crossing midnight
    (23:30–01:00) considers both days' builds. -/
theorem getScheduledMovementsAsync_window_inclusion_witness :
    ((0 : Int) ≤ ((getScheduledMovementsAsync envSchedNoon 0 86399999).headD mvBase).scheduledTime ∧
      ((getScheduledMovementsAsync envSchedNoon 0 86399999).headD mvBase).scheduledTime ≤ 86399999) ∧
    getScheduledMovementsAsync envSchedNoon 84600000 90000000 =
      windowFilter 84600000 90000000
        (buildMovementsFromGTFS schedNoon (startOfDay 84600000) 0 ++
         buildMovementsFromGTFS schedNoon (startOfDay 84600000 + msPerDay) 0) := by
  constructor
  · have hm : (getScheduledMovementsAsync envSchedNoon 0 86399999).headD mvBase ∈
        getScheduledMovementsAsync envSchedNoon 0 86399999 := by
      have h : (getScheduledMovementsAsync envSchedNoon 0 86399999).head? =
          some ((getScheduledMovementsAsync envSchedNoon 0 86399999).headD mvBase) := by
        decide
      exact List.mem_of_mem_head? (by rw [h]; rfl)
    exact (getScheduledMovementsAsync_window_inclusion envSchedNoon 0 86399999).1 _ hm
  · exact (getScheduledMovementsAsync_window_inclusion envSchedNoon 84600000 90000000).2
      schedNoon rfl (by decide) (by decide)

/-- C7: for a movement whose two corridor calls carry usable (parsed,
    nonzero) times, the estimator returns none exactly outside the
    3-minute-padded [entry, exit] window; at instants inside it returns
    the linear elapsed-time interpolation between the entry and exit
    station distances, or the corresponding padding-segment
    interpolation, normalized by the total path length. -/
theorem estimatePositionT_window (m : Movement) (now ct kt : Int)
    (hc : movementCallTime m.cardiffCall = some ct)
    (hk : movementCallTime m.kotaraCall = some kt)
    (hc0 : ct ≠ 0) (hk0 : kt ≠ 0) :
    (estimatePositionT m now = none ↔
      now < corridorEntryTime m ct kt - 3 * 60 * 1000 ∨
      now > corridorExitTime m ct kt + 3 * 60 * 1000) ∧
    (corridorEntryTime m ct kt - 3 * 60 * 1000 ≤ now →
      now ≤ corridorExitTime m ct kt + 3 * 60 * 1000 →
      now < corridorEntryTime m ct kt →
      estimatePositionT m now =
        some ((corridorPadStartDist m +
          (corridorEntryDist m - corridorPadStartDist m) *
            (((now - (corridorEntryTime m ct kt - 3 * 60 * 1000) : Int) : ℝ) /
              ((3 * 60 * 1000 : Int) : ℝ))) / TOTAL_PATH_LENGTH)) ∧
    (corridorEntryTime m ct kt ≤ now → now ≤ corridorExitTime m ct kt →
      estimatePositionT m now =
        some ((corridorEntryDist m +
          (corridorExitDist m - corridorEntryDist m) *
            (if corridorExitTime m ct kt = corridorEntryTime m ct kt then 1
             else ((now - corridorEntryTime m ct kt : Int) : ℝ) /
               ((corridorExitTime m ct kt - corridorEntryTime m ct kt : Int) : ℝ))) /
          TOTAL_PATH_LENGTH)) ∧
    (corridorEntryTime m ct kt ≤ now → corridorExitTime m ct kt < now →
      now ≤ corridorExitTime m ct kt + 3 * 60 * 1000 →
      estimatePositionT m now =
        some ((corridorExitDist m +
          (corridorPadEndDist m - corridorExitDist m) *
            (((now - corridorExitTime m ct kt : Int) : ℝ) /
              ((3 * 60 * 1000 : Int) : ℝ))) / TOTAL_PATH_LENGTH)) := by
  have hguard : ¬(ct = 0 ∨ kt = 0) := by tauto
  unfold estimatePositionT
  rw [hc, hk]
  simp only [hguard, if_false, reduceIte]
  unfold corridorEntryTime corridorExitTime corridorEntryDist corridorExitDist
    corridorPadStartDist corridorPadEndDist
  by_cases hdir : m.direction = .towardsNewcastle <;>
    simp only [hdir, if_true, if_false, reduceIte] <;>
    refine ⟨?_, ?_, ?_, ?_⟩
  · constructor
    · intro hnone
      by_contra hcon
      push_neg at hcon
      have h1 : ¬(now < ct - 3 * 60 * 1000 ∨ now > kt + 3 * 60 * 1000) := by omega
      rw [if_neg h1] at hnone
      by_cases h2 : now < ct
      · rw [if_pos h2] at hnone
        exact Option.noConfusion hnone
      · rw [if_neg h2] at hnone
        by_cases h3 : now ≤ kt
        · rw [if_pos h3] at hnone
          exact Option.noConfusion hnone
        · rw [if_neg h3] at hnone
          exact Option.noConfusion hnone
    · intro h
      rw [if_pos h]
  · intro ha hb hlt
    have h1 : ¬(now < ct - 3 * 60 * 1000 ∨ now > kt + 3 * 60 * 1000) := by omega
    rw [if_neg h1, if_pos hlt]
  · intro ha hb
    have h1 : ¬(now < ct - 3 * 60 * 1000 ∨ now > kt + 3 * 60 * 1000) := by omega
    have h2 : ¬(now < ct) := by omega
    rw [if_neg h1, if_neg h2, if_pos hb]
  · intro ha hb hcpad
    have h1 : ¬(now < ct - 3 * 60 * 1000 ∨ now > kt + 3 * 60 * 1000) := by omega
    have h2 : ¬(now < ct) := by omega
    have h3 : ¬(now ≤ kt) := by omega
    rw [if_neg h1, if_neg h2, if_neg h3]
  · constructor
    · intro hnone
      by_contra hcon
      push_neg at hcon
      have h1 : ¬(now < kt - 3 * 60 * 1000 ∨ now > ct + 3 * 60 * 1000) := by omega
      rw [if_neg h1] at hnone
      by_cases h2 : now < kt
      · rw [if_pos h2] at hnone
        exact Option.noConfusion hnone
      · rw [if_neg h2] at hnone
        by_cases h3 : now ≤ ct
        · rw [if_pos h3] at hnone
          exact Option.noConfusion hnone
        · rw [if_neg h3] at hnone
          exact Option.noConfusion hnone
    · intro h
      rw [if_pos h]
  · intro ha hb hlt
    have h1 : ¬(now < kt - 3 * 60 * 1000 ∨ now > ct + 3 * 60 * 1000) := by omega
    rw [if_neg h1, if_pos hlt]
  · intro ha hb
    have h1 : ¬(now < kt - 3 * 60 * 1000 ∨ now > ct + 3 * 60 * 1000) := by omega
    have h2 : ¬(now < kt) := by omega
    rw [if_neg h1, if_neg h2, if_pos hb]
  · intro ha hb hcpad
    have h1 : ¬(now < kt - 3 * 60 * 1000 ∨ now > ct + 3 * 60 * 1000) := by omega
    have h2 : ¬(now < kt) := by omega
    have h3 : ¬(now ≤ ct) := by omega
    rw [if_neg h1, if_neg h2, if_neg h3]

/-- C7 witness: the concrete movement with Cardiff at 600000 ms and
    Kotara at 900000 ms is reported out of corridor at now = 0, which is
    earlier than 3 minutes before entry. -/
theorem estimatePositionT_window_witness :
    estimatePositionT mvC7 0 = none ∧
    (0 : Int) < corridorEntryTime mvC7 600000 900000 - 3 * 60 * 1000 := by
  have h := estimatePositionT_window mvC7 0 600000 900000 rfl rfl
    (by decide) (by decide)
  refine ⟨h.1.mpr (Or.inl (by decide)), by decide⟩

/-- Each consecutive pair of rail-path points is geometrically distinct:
    every segment has positive squared length. -/
theorem railPath_adj_pos :
    List.Chain' (fun p q => 0 < sqDist p q) railPath := by
  unfold railPath
  simp only [List.chain'_cons, List.chain'_singleton, and_true, sqDist]
  norm_num

/-- withCumDist keeps one entry per point. -/
theorem withCumDist_length (l : List (ℚ × ℚ)) :
    ∀ (prevPt : ℚ × ℚ) (acc : ℝ), (withCumDist l prevPt acc).length = l.length := by
  induction l with
  | nil => intro prevPt acc; rfl
  | cons q l' ih =>
      intro prevPt acc
      unfold withCumDist
      simp [ih]

/-- withCumDist preserves the points. -/
theorem withCumDist_map_fst (l : List (ℚ × ℚ)) :
    ∀ (prevPt : ℚ × ℚ) (acc : ℝ),
      (withCumDist l prevPt acc).map Prod.fst = l := by
  induction l with
  | nil => intro prevPt acc; rfl
  | cons q l' ih =>
      intro prevPt acc
      unfold withCumDist
      simp [ih]

/-- Positive squared segment lengths make the cumulative distances
    strictly increasing. -/
theorem withCumDist_chain (l : List (ℚ × ℚ)) :
    ∀ (prevPt : ℚ × ℚ) (acc : ℝ),
      List.Chain (fun p q => 0 < sqDist p q) prevPt l →
      List.Chain' (fun a b : (ℚ × ℚ) × ℝ => a.2 < b.2)
        ((prevPt, acc) :: withCumDist l prevPt acc) := by
  induction l with
  | nil =>
      intro prevPt acc _
      exact List.chain'_singleton _
  | cons q l' ih =>
      intro prevPt acc h
      rw [List.chain_cons] at h
      obtain ⟨hpq, hrest⟩ := h
      unfold withCumDist
      refine List.Chain'.cons ?_ (ih q _ hrest)
      have hsq : (0 : ℝ) < Real.sqrt ((sqDist prevPt q : ℚ) : ℝ) :=
        Real.sqrt_pos.mpr (by exact_mod_cast hpq)
      simpa using lt_add_of_pos_right acc hsq

/-- Along a strictly increasing chain, the head is below every later
    entry. -/
theorem chain'_snd_head_lt_get (x : (ℚ × ℚ) × ℝ) (l : List ((ℚ × ℚ) × ℝ))
    (h : List.Chain' (fun a b => a.2 < b.2) (x :: l)) :
    ∀ (j : Nat) (hj : j < l.length), x.2 < (l.get ⟨j, hj⟩).2 := by
  induction l generalizing x with
  | nil =>
      intro j hj
      exact absurd hj (by simp)
  | cons y l' ih =>
      intro j hj
      rw [List.chain'_cons] at h
      obtain ⟨hxy, hrest⟩ := h
      cases j with
      | zero => exact hxy
      | succ j' =>
          exact lt_trans hxy (ih y hrest j' (by simpa using hj))

/-- A strictly increasing chain is strictly increasing between any two
    indices. -/
theorem chain'_snd_get_lt_get (l : List ((ℚ × ℚ) × ℝ))
    (h : List.Chain' (fun a b => a.2 < b.2) l) :
    ∀ (i j : Nat) (hi : i < l.length) (hj : j < l.length), i < j →
      (l.get ⟨i, hi⟩).2 < (l.get ⟨j, hj⟩).2 := by
  induction l with
  | nil =>
      intro i j hi
      exact absurd hi (by simp)
  | cons x l' ih =>
      intro i j hi hj hij
      cases i with
      | zero =>
          cases j with
          | zero => omega
          | succ j' =>
              exact chain'_snd_head_lt_get x l' h j' (by simpa using hj)
      | succ i' =>
          cases j with
          | zero => omega
          | succ j' =>
              exact ih (List.Chain'.tail h) i' j' (by simpa using hi)
                (by simpa using hj) (by omega)

/-- On a strictly increasing cumulative table, searching for exactly the
    idx-th cumulative distance lands on the idx-th point. -/
theorem interpGo_at_index (rest : List ((ℚ × ℚ) × ℝ)) :
    ∀ prev : (ℚ × ℚ) × ℝ,
      List.Chain' (fun a b => a.2 < b.2) (prev :: rest) →
      ∀ (idx : Nat) (hidx : idx < rest.length),
        interpGo prev rest ((rest.get ⟨idx, hidx⟩).2) =
          ptR (rest.get ⟨idx, hidx⟩).1 := by
  induction rest with
  | nil =>
      intro prev _ idx hidx
      exact absurd hidx (by simp)
  | cons pc rest' ih =>
      intro prev hch idx hidx
      obtain ⟨hlt, hrest⟩ := List.chain'_cons.mp hch
      cases idx with
      | zero =>
          show interpGo prev (pc :: rest') pc.2 = ptR pc.1
          have hne : pc.2 ≠ prev.2 := ne_of_gt hlt
          unfold interpGo
          rw [if_pos (le_refl pc.2), if_neg hne,
            div_self (sub_ne_zero.mpr hne)]
          simp only [ptR]
          exact Prod.ext (by ring) (by ring)
      | succ idx' =>
          have hidx' : idx' < rest'.length := by simpa using hidx
          have htarget : pc.2 < (rest'.get ⟨idx', hidx'⟩).2 :=
            chain'_snd_head_lt_get pc rest' hrest idx' hidx'
          show interpGo prev (pc :: rest') ((rest'.get ⟨idx', hidx'⟩).2) =
            ptR ((rest'.get ⟨idx', hidx'⟩).1)
          unfold interpGo
          rw [if_neg (not_le.mpr htarget)]
          exact ih pc hrest idx' hidx'

/-- Searching for target 0 from a zero head returns the head point. -/
theorem interpGo_at_zero (prev : (ℚ × ℚ) × ℝ) (rest : List ((ℚ × ℚ) × ℝ))
    (hprev : prev.2 = 0)
    (hchain : List.Chain' (fun a b => a.2 < b.2) (prev :: rest)) :
    interpGo prev rest 0 = ptR prev.1 := by
  cases rest with
  | nil => rfl
  | cons pc rest' =>
      obtain ⟨hlt, _⟩ := List.chain'_cons.mp hchain
      have hpos : (0 : ℝ) < pc.2 := by rw [← hprev]; exact hlt
      have hne : pc.2 ≠ prev.2 := ne_of_gt hlt
      unfold interpGo
      rw [if_pos (le_of_lt hpos), if_neg hne, hprev]
      simp [ptR]

/-- The concrete cumulative table, destructured. -/
theorem pathCum_railPath :
    pathCum railPath =
      (railPath.headD (0, 0), 0) ::
        withCumDist railPath.tail (railPath.headD (0, 0)) 0 := rfl

/-- The concrete cumulative tail has 94 entries. -/
theorem railCum_length :
    (withCumDist railPath.tail (railPath.headD (0, 0)) 0).length = 94 := by
  rw [withCumDist_length]
  decide

/-- The concrete cumulative table is strictly increasing. -/
theorem railCum_chain :
    List.Chain' (fun a b : (ℚ × ℚ) × ℝ => a.2 < b.2)
      ((railPath.headD (0, 0), 0) ::
        withCumDist railPath.tail (railPath.headD (0, 0)) 0) := by
  apply withCumDist_chain
  exact railPath_adj_pos

/-- interpolateOnPath reduced to the cumulative-table search. -/
theorem interpolateOnPath_eq (t : ℝ) :
    interpolateOnPath t =
      interpGo (railPath.headD (0, 0), 0)
        (withCumDist railPath.tail (railPath.headD (0, 0)) 0)
        (max 0 (min 1 t) * TOTAL_PATH_LENGTH) := by
  unfold interpolateOnPath
  rw [pathCum_railPath]

/-- The entries of the cumulative tail project to the path tail. -/
theorem railCum_get_fst (j : Nat)
    (hjR : j < (withCumDist railPath.tail (railPath.headD (0, 0)) 0).length)
    (hjT : j < railPath.tail.length) :
    ((withCumDist railPath.tail (railPath.headD (0, 0)) 0).get ⟨j, hjR⟩).1 =
      railPath.tail.get ⟨j, hjT⟩ := by
  have hm := withCumDist_map_fst railPath.tail (railPath.headD (0, 0)) 0
  have h2 := List.get_of_eq hm
    ⟨j, by simpa [List.length_map] using hjR⟩
  rw [List.get_map] at h2
  simpa using h2

/-- CARDIFF_DISTANCE is the cumulative entry at tail index 0. -/
theorem CARDIFF_DISTANCE_eq :
    CARDIFF_DISTANCE =
      ((withCumDist railPath.tail (railPath.headD (0, 0)) 0).get
        ⟨0, by rw [railCum_length]; omega⟩).2 := by
  unfold CARDIFF_DISTANCE cumAt CARDIFF_PATH_INDEX
  rw [pathCum_railPath, List.getD_cons_succ,
    List.getD_eq_get _ _ (by rw [railCum_length]; omega)]

/-- KOTARA_DISTANCE is the cumulative entry at tail index 59. -/
theorem KOTARA_DISTANCE_eq :
    KOTARA_DISTANCE =
      ((withCumDist railPath.tail (railPath.headD (0, 0)) 0).get
        ⟨59, by rw [railCum_length]; omega⟩).2 := by
  unfold KOTARA_DISTANCE cumAt KOTARA_PATH_INDEX
  rw [pathCum_railPath, List.getD_cons_succ,
    List.getD_eq_get _ _ (by rw [railCum_length]; omega)]

/-- TOTAL_PATH_LENGTH is the cumulative entry at tail index 93. -/
theorem TOTAL_PATH_LENGTH_eq :
    TOTAL_PATH_LENGTH =
      ((withCumDist railPath.tail (railPath.headD (0, 0)) 0).get
        ⟨93, by rw [railCum_length]; omega⟩).2 := by
  unfold TOTAL_PATH_LENGTH cumAt
  have hl : railPath.length - 1 = 94 := by decide
  rw [hl, pathCum_railPath, List.getD_cons_succ,
    List.getD_eq_get _ _ (by rw [railCum_length]; omega)]

/-- Interpolating at the normalized cumulative distance of tail index k
    returns exactly the k-th tail point. -/
theorem interpolateOnPath_at_cum (k : Nat)
    (hkR : k < (withCumDist railPath.tail (railPath.headD (0, 0)) 0).length) :
    interpolateOnPath
        (((withCumDist railPath.tail (railPath.headD (0, 0)) 0).get ⟨k, hkR⟩).2 /
          TOTAL_PATH_LENGTH) =
      ptR (((withCumDist railPath.tail (railPath.headD (0, 0)) 0).get ⟨k, hkR⟩).1) := by
  have hR := railCum_length
  set R := withCumDist railPath.tail (railPath.headD (0, 0)) 0 with hRdef
  have h93 : 93 < R.length := by rw [hR]; omega
  have hchain := railCum_chain
  have hpos : ∀ (j : Nat) (hj : j < R.length), (0 : ℝ) < (R.get ⟨j, hj⟩).2 := by
    intro j hj
    have h := chain'_snd_head_lt_get (railPath.headD (0, 0), 0) R hchain j hj
    simpa using h
  have hmono := chain'_snd_get_lt_get R (List.Chain'.tail hchain)
  have hT : TOTAL_PATH_LENGTH = (R.get ⟨93, h93⟩).2 := TOTAL_PATH_LENGTH_eq
  have hTpos : (0 : ℝ) < TOTAL_PATH_LENGTH := by rw [hT]; exact hpos 93 h93
  have hle : (R.get ⟨k, hkR⟩).2 ≤ TOTAL_PATH_LENGTH := by
    rw [hT]
    rcases Nat.lt_or_ge k 93 with h | h
    · exact le_of_lt (hmono k 93 hkR h93 h)
    · have hk93 : k = 93 := by omega
      subst hk93
      rfl
  have hclamped : max 0 (min 1 ((R.get ⟨k, hkR⟩).2 / TOTAL_PATH_LENGTH)) *
      TOTAL_PATH_LENGTH = (R.get ⟨k, hkR⟩).2 := by
    rw [min_eq_right (by rw [div_le_one hTpos]; exact hle),
      max_eq_right (div_nonneg (le_of_lt (hpos k hkR)) (le_of_lt hTpos))]
    exact div_mul_cancel₀ _ (ne_of_gt hTpos)
  rw [interpolateOnPath_eq, hclamped]
  exact interpGo_at_index R (railPath.headD (0, 0), 0) hchain k hkR

/-- C8: interpolating the rail path at each corridor station's normalized
    position (its cumulative distance over the total path length) returns
    that station's on-track anchor coordinate exactly, and
    interpolateOnPath is total: every t at most 0 is clamped to the first
    path point and every t at least 1 to the last. -/
theorem interpolateOnPath_station_roundtrip :
    interpolateOnPath (CARDIFF_DISTANCE / TOTAL_PATH_LENGTH) = ptR CARDIFF_TRACK_POS ∧
    interpolateOnPath (KOTARA_DISTANCE / TOTAL_PATH_LENGTH) = ptR KOTARA_TRACK_POS ∧
    (∀ t : ℝ, t ≤ 0 → interpolateOnPath t = ptR (railPath.getD 0 (0, 0))) ∧
    (∀ t : ℝ, 1 ≤ t →
      interpolateOnPath t = ptR (railPath.getD (railPath.length - 1) (0, 0))) := by
  refine ⟨?_, ?_, ?_, ?_⟩
  · rw [CARDIFF_DISTANCE_eq]
    have h := interpolateOnPath_at_cum 0 (by rw [railCum_length]; omega)
    rw [h, railCum_get_fst 0 (by rw [railCum_length]; omega) (by decide)]
    rfl
  · rw [KOTARA_DISTANCE_eq]
    have h := interpolateOnPath_at_cum 59 (by rw [railCum_length]; omega)
    rw [h, railCum_get_fst 59 (by rw [railCum_length]; omega) (by decide)]
    rfl
  · intro t ht
    rw [interpolateOnPath_eq, min_eq_right (le_trans ht zero_le_one),
      max_eq_left ht, zero_mul]
    exact interpGo_at_zero (railPath.headD (0, 0), 0)
      (withCumDist railPath.tail (railPath.headD (0, 0)) 0) rfl railCum_chain
  · intro t ht
    rw [interpolateOnPath_eq, min_eq_left ht, max_eq_right zero_le_one, one_mul,
      TOTAL_PATH_LENGTH_eq]
    have h := interpGo_at_index (withCumDist railPath.tail (railPath.headD (0, 0)) 0)
      (railPath.headD (0, 0), 0) railCum_chain 93 (by rw [railCum_length]; omega)
    rw [h, railCum_get_fst 93 (by rw [railCum_length]; omega) (by decide)]
    rfl

/-- C8 witness: the clamping cases applied at the concrete out-of-range
    inputs -1 and 2. -/
theorem interpolateOnPath_station_roundtrip_witness :
    interpolateOnPath (-1) = ptR (railPath.getD 0 (0, 0)) ∧
    interpolateOnPath 2 = ptR (railPath.getD (railPath.length - 1) (0, 0)) :=
  ⟨interpolateOnPath_station_roundtrip.2.2.1 (-1) (by norm_num),
   interpolateOnPath_station_roundtrip.2.2.2 2 (by norm_num)⟩
